import Mathlib

/-!
Verification development for the Betaflight GPS Rescue controller
(src/main/flight/gps_rescue.c, distributed in this repository inside
src/src/main/drivers/at32/timer_at32f43x.c).

The C module is embedded shallowly over the rationals: every `float` of the
source becomes a `ℚ`, `int8_t`/`int16_t` counters become `ℤ` (their values are
kept in range by the very `constrain` calls of the source), and the module's
file-scope state, the static locals of each function and the effect of the
`disarm`/`setArmingDisabled` calls are gathered into one explicit state record
`GState` that each embedded function transforms.  External collaborators
(GPS driver, altitude estimator, attitude estimator, RC link, clock) are an
environment record `Env` sampled once per task tick, exactly the quantities
the source reads from them.
-/

set_option linter.unusedVariables false
set_option linter.unnecessarySeqFocus false

/-- The ten rescue phases of the source enum `rescuePhase_e`. -/
inductive RescuePhase where
  | RESCUE_IDLE
  | RESCUE_INITIALIZE
  | RESCUE_ATTAIN_ALT
  | RESCUE_ROTATE
  | RESCUE_FLY_HOME
  | RESCUE_DESCENT
  | RESCUE_LANDING
  | RESCUE_ABORT
  | RESCUE_COMPLETE
  | RESCUE_DO_NOTHING
  deriving DecidableEq, Repr

/-- The failure classification of the source enum `rescueFailureState_e`. -/
inductive RescueFailureState where
  | RESCUE_HEALTHY
  | RESCUE_FLYAWAY
  | RESCUE_GPSLOST
  | RESCUE_LOWSATS
  | RESCUE_CRASH_FLIP_DETECTED
  | RESCUE_STALLED
  | RESCUE_TOO_CLOSE
  | RESCUE_NO_HOME_POINT
  deriving DecidableEq, Repr

/-- The `gpsRescueConfig()->sanityChecks` policy selector. -/
inductive SanityCheckMode where
  | RESCUE_SANITY_OFF
  | RESCUE_SANITY_ON
  | RESCUE_SANITY_FS_ONLY
  deriving DecidableEq, Repr

/-- The `gpsRescueConfig()->altitudeMode` selector. -/
inductive AltitudeMode where
  | GPS_RESCUE_ALT_MODE_FIXED
  | GPS_RESCUE_ALT_MODE_CURRENT
  | GPS_RESCUE_ALT_MODE_MAX
  deriving DecidableEq, Repr

/-- The disarm reasons this module passes to `disarm(...)`. -/
inductive DisarmReason where
  | DISARM_REASON_CRASH_PROTECTION
  | DISARM_REASON_GPS_RESCUE
  | DISARM_REASON_FAILSAFE
  deriving DecidableEq, Repr

open RescuePhase RescueFailureState SanityCheckMode AltitudeMode DisarmReason

/-- `constrainf` of common/maths.h: clamp a rational to `[low, high]`. -/
def constrainf (amt low high : ℚ) : ℚ :=
  if amt < low then low else if amt > high then high else amt

/-- `constrain` of common/maths.h: clamp an integer to `[low, high]`. -/
def constrain (amt low high : ℤ) : ℤ :=
  if amt < low then low else if amt > high then high else amt

/-- `fmaxf`: maximum of two rationals, written with the order test so that
    every definition stays kernel-computable. -/
def fmaxf (x y : ℚ) : ℚ := if x < y then y else x

/-- `fabsf`: absolute value of a rational. -/
def fabsf (q : ℚ) : ℚ := if q < 0 then -q else q

/-- `MIN` of common/utils.h on integers. -/
def cMIN (a b : ℤ) : ℤ := if a < b then a else b

/-- C float-to-integer conversion (truncation toward zero), used where the
    source stores a float expression into `static int16_t throttleAdjustment`.
    Both division operands are nonnegative, so any integer-division convention
    agrees with C truncation. -/
def ctrunc (q : ℚ) : ℤ :=
  if 0 ≤ q.num then q.num / (q.den : ℤ) else -((-q.num) / (q.den : ℤ))

/-- Modelled from the spec: a PT1 low-pass section (common/filter.c is not in
    src/).  `state` is the output, `k` the gain: `y ← y + k·(x − y)`. -/
structure pt1Filter where
  state : ℚ
  k : ℚ

/-- Modelled from the spec: a PT2 low-pass, two cascaded PT1 sections. -/
structure pt2Filter where
  state : ℚ
  state1 : ℚ
  k : ℚ

/-- Modelled from the spec: a PT3 low-pass, three cascaded PT1 sections. -/
structure pt3Filter where
  state : ℚ
  state1 : ℚ
  state2 : ℚ
  k : ℚ

/-- Modelled from the spec: `pt1FilterApply`, one PT1 step; the new `state`
    field is the filter output. -/
def pt1FilterApply (f : pt1Filter) (input : ℚ) : pt1Filter :=
  { f with state := f.state + f.k * (input - f.state) }

/-- Modelled from the spec: `pt1FilterUpdateCutoff`, replace the gain. -/
def pt1FilterUpdateCutoff (f : pt1Filter) (k : ℚ) : pt1Filter :=
  { f with k := k }

/-- Modelled from the spec: `pt2FilterApply`, two cascaded PT1 steps. -/
def pt2FilterApply (f : pt2Filter) (input : ℚ) : pt2Filter :=
  let state1 := f.state1 + f.k * (input - f.state1)
  { f with state1 := state1, state := f.state + f.k * (state1 - f.state) }

/-- Modelled from the spec: `pt3FilterApply`, three cascaded PT1 steps. -/
def pt3FilterApply (f : pt3Filter) (input : ℚ) : pt3Filter :=
  let state1 := f.state1 + f.k * (input - f.state1)
  let state2 := f.state2 + f.k * (state1 - f.state2)
  { f with state1 := state1, state2 := state2,
           state := f.state + f.k * (state2 - f.state) }

/-- The configuration values the module reads: the `gpsRescueConfig()` fields
    it uses, plus `gpsConfig()->gps_set_home_point_once`,
    `rcControlsConfig()->yaw_control_reversed` and the satellite floor
    `GPS_MIN_SAT_COUNT`. -/
structure Config where
  minRescueDth : ℚ
  descentDistanceM : ℚ
  initialAltitudeM : ℚ
  rescueAltitudeBufferM : ℚ
  altitudeMode : AltitudeMode
  ascendRate : ℚ
  descendRate : ℚ
  rescueGroundspeed : ℚ
  maxRescueAngle : ℚ
  targetLandingAltitudeM : ℚ
  throttleP : ℚ
  throttleI : ℚ
  throttleD : ℚ
  throttleHover : ℚ
  throttleMin : ℚ
  throttleMax : ℚ
  yawP : ℚ
  rollMix : ℚ
  velP : ℚ
  velI : ℚ
  velD : ℚ
  disarmThreshold : ℚ
  sanityChecks : SanityCheckMode
  allowArmingWithoutFix : Bool
  useMag : Bool
  pitchCutoffHz : ℚ
  gps_set_home_point_once : Bool
  yaw_control_reversed : Bool
  gpsMinSatCount : ℤ

/-- One tick's sample of every external quantity the module reads.
    `accMagnitudeComputed` is modelled from the spec: it stands for
    `sqrtf(sq(accADC[Z]−acc_1G)+sq(accADC[X])+sq(accADC[Y]))·acc_1G_rec`
    (common/maths sqrtf is outside src/ and irrational over ℚ).
    `velocityDLpfGain` is modelled from the spec: it stands for
    `pt1FilterGain(cutoffHz, gpsDataIntervalSeconds)` = `dt/(dt+1/(2π·fc))`,
    which involves the transcendental π, so the sampled gain is an
    environment input. -/
structure Env where
  currentTimeUs : ℤ
  flightModeGpsRescue : Bool
  armed : Bool
  getAltitude : ℚ
  gpsIsHealthy : Bool
  accMagnitudeComputed : ℚ
  GPS_directionToHome : ℤ
  attitudeYaw : ℤ
  newGPSData : Bool
  GPS_distanceToHomeCm : ℚ
  gpsGroundSpeed : ℚ
  getGpsDataIntervalSeconds : ℚ
  rxIsReceivingSignal : Bool
  crashRecoveryModeActive : Bool
  gpsFix : Bool
  gpsFixHome : Bool
  numSat : ℤ
  sensorsMag : Bool
  rcCommandThrottle : ℚ
  getCosTiltAngle : ℚ
  velocityDLpfGain : ℚ

/-- `rescueSensorData_s`. -/
structure RescueSensorData where
  currentAltitudeCm : ℚ
  distanceToHomeCm : ℚ
  distanceToHomeM : ℚ
  groundSpeedCmS : ℚ
  directionToHome : ℤ
  accMagnitude : ℚ
  healthy : Bool
  errorAngle : ℚ
  gpsDataIntervalSeconds : ℚ
  altitudeDataIntervalSeconds : ℚ
  gpsRescueTaskIntervalSeconds : ℚ
  velocityToHomeCmS : ℚ
  absErrorAngle : ℚ

/-- `rescueIntent_s`. -/
structure RescueIntent where
  maxAltitudeCm : ℚ
  returnAltitudeCm : ℚ
  targetAltitudeCm : ℚ
  targetLandingAltitudeCm : ℚ
  targetVelocityCmS : ℚ
  pitchAngleLimitDeg : ℚ
  rollAngleLimitDeg : ℚ
  descentDistanceM : ℚ
  secondsFailing : ℤ
  altitudeStep : ℚ
  descentRateModifier : ℚ
  yawAttenuator : ℚ
  disarmThreshold : ℚ
  velocityPidCutoff : ℚ
  velocityPidCutoffModifier : ℚ
  proximityToLandingArea : ℚ
  velocityItermRelax : ℚ

/-- The whole mutable state of the module: `rescueState_s` (phase, failure,
    sensor, intent, isAvailable), the file-scope outputs and flags, the three
    filter instances, the static locals of `rescueAttainPosition`,
    `performSanityChecks`, `sensorUpdate`, `checkGPSRescueIsAvailable` and
    `gpsRescueUpdate`, and a log of the disarm calls issued. -/
structure GState where
  phase : RescuePhase
  failure : RescueFailureState
  sensor : RescueSensorData
  intent : RescueIntent
  isAvailable : Bool
  rescueThrottle : ℚ
  rescueYaw : ℚ
  gpsRescueAnglePitch : ℚ
  gpsRescueAngleRoll : ℚ
  magForceDisable : Bool
  throttleDLpf : pt2Filter
  velocityDLpf : pt1Filter
  velocityUpsampleLpf : pt3Filter
  previousVelocityError : ℚ
  velocityI : ℚ
  throttleI : ℚ
  previousAltitudeError : ℚ
  throttleAdjustment : ℤ
  pitchAdjustment : ℚ
  previousTimeUs : ℤ
  prevAltitudeCm : ℚ
  prevTargetAltitudeCm : ℚ
  previousDistanceToHomeCm : ℚ
  secondsLowSats : ℤ
  secondsDoingNothing : ℤ
  prevDistanceToHomeCm : ℚ
  previousAltitudeDataTimeUs : ℤ
  availPreviousTimeUs : ℤ
  availSecondsLowSats : ℤ
  availLowsats : Bool
  availNoGPSfix : Bool
  initialAltitudeLow : Bool
  initialVelocityLow : Bool
  disarmCalls : List DisarmReason
  armingDisabled : Bool

/-- `rescueStart`: enter `RESCUE_INITIALIZE`. -/
def rescueStart (s : GState) : GState := { s with phase := RESCUE_INITIALIZE }

/-- `rescueStop`: return to `RESCUE_IDLE`. -/
def rescueStop (s : GState) : GState := { s with phase := RESCUE_IDLE }

/-- The effect of `setArmingDisabled(ARMING_DISABLED_ARM_SWITCH)` followed by
    `disarm(reason)`: remembered in the state so theorems can observe which
    disarm calls a tick issued. -/
def disarmWith (reason : DisarmReason) (s : GState) : GState :=
  { s with armingDisabled := true, disarmCalls := s.disarmCalls ++ [reason] }

/-- `setReturnAltitude`: runs on idle ticks; tracks `maxAltitudeCm` while
    armed, and on new GPS data refreshes `targetAltitudeCm`,
    `descentDistanceM` and `returnAltitudeCm` per the altitude mode. -/
def setReturnAltitude (cfg : Config) (env : Env) (s : GState) : GState :=
  if !env.armed && !cfg.gps_set_home_point_once then
    { s with intent := { s.intent with maxAltitudeCm := 0 } }
  else
    let s := { s with intent := { s.intent with
      maxAltitudeCm := fmaxf s.sensor.currentAltitudeCm s.intent.maxAltitudeCm } }
    if env.newGPSData then
      let initialAltitudeCm := cfg.initialAltitudeM * 100
      let rescueAltitudeBufferCm := cfg.rescueAltitudeBufferM * 100
      let returnAlt :=
        match cfg.altitudeMode with
        | GPS_RESCUE_ALT_MODE_FIXED => initialAltitudeCm
        | GPS_RESCUE_ALT_MODE_CURRENT => s.sensor.currentAltitudeCm + rescueAltitudeBufferCm
        | GPS_RESCUE_ALT_MODE_MAX => s.intent.maxAltitudeCm + rescueAltitudeBufferCm
      { s with intent := { s.intent with
          targetAltitudeCm := s.sensor.currentAltitudeCm,
          descentDistanceM := constrainf s.sensor.distanceToHomeM 5 cfg.descentDistanceM,
          returnAltitudeCm := returnAlt } }
    else s

/-- `rescueAttainPosition`: the three controllers.  Early returns for
    `RESCUE_IDLE` (pilot passthrough), `RESCUE_INITIALIZE` (zero the
    integrators, set the disarm threshold) and `RESCUE_DO_NOTHING`
    (level attitude, hover minus 100); otherwise the altitude→throttle PID,
    the heading→yaw+roll mix, and — on new GPS data only — the
    velocity→pitch PID, whose held output is PT3-upsampled each tick. -/
def rescueAttainPosition (cfg : Config) (env : Env) (s : GState) : GState :=
  match s.phase with
  | RESCUE_IDLE =>
    { s with gpsRescueAnglePitch := 0, gpsRescueAngleRoll := 0,
             rescueThrottle := env.rcCommandThrottle }
  | RESCUE_INITIALIZE =>
    { s with previousVelocityError := 0, velocityI := 0, throttleI := 0,
             previousAltitudeError := 0, throttleAdjustment := 0,
             intent := { s.intent with disarmThreshold := cfg.disarmThreshold / 10 } }
  | RESCUE_DO_NOTHING =>
    { s with gpsRescueAnglePitch := 0, gpsRescueAngleRoll := 0,
             rescueThrottle := cfg.throttleHover - 100 }
  | _ =>
    -- Altitude (throttle) controller
    let altitudeError := (s.intent.targetAltitudeCm - s.sensor.currentAltitudeCm) * (1/100)
    let throttleP := cfg.throttleP * altitudeError
    let throttleInew := constrainf
      (s.throttleI + (1/10) * cfg.throttleI * altitudeError * s.sensor.altitudeDataIntervalSeconds)
      (-200) 200
    let verticalSpeed0 := (altitudeError - s.previousAltitudeError) / s.sensor.altitudeDataIntervalSeconds
    let verticalSpeed := verticalSpeed0 + s.intent.descentRateModifier * verticalSpeed0
    let throttleDLpfNew := pt2FilterApply s.throttleDLpf verticalSpeed
    let throttleD := cfg.throttleD * throttleDLpfNew.state
    let tiltAdjustment := (1 - env.getCosTiltAngle) * (cfg.throttleHover - 1000)
    let throttleAdjustmentNew := ctrunc (throttleP + throttleInew + throttleD + tiltAdjustment)
    let rescueThrottleNew := constrainf (cfg.throttleHover + (throttleAdjustmentNew : ℚ))
      cfg.throttleMin cfg.throttleMax
    -- Heading / yaw controller
    let rescueYaw0 := constrainf
      (s.sensor.errorAngle * cfg.yawP * s.intent.yawAttenuator * (1/10)) (-180) 180
    let rollMixAttenuator := constrainf (1 - fabsf rescueYaw0 * (1/100)) 0 1
    let rollAdjustment := -rescueYaw0 * cfg.rollMix * rollMixAttenuator
    let rollLimit := 100 * s.intent.rollAngleLimitDeg
    let angleRollNew := constrainf rollAdjustment (-rollLimit) rollLimit
    let rescueYawNew := rescueYaw0 * (if cfg.yaw_control_reversed then -1 else 1)
    -- Pitch / velocity controller (recomputed only on new GPS data)
    let pitchState :=
      if env.newGPSData then
        let sampleIntervalNormaliseFactor := s.sensor.gpsDataIntervalSeconds * 10
        let velocityError := s.intent.targetVelocityCmS - s.sensor.velocityToHomeCmS
        let velocityP := velocityError * cfg.velP
        let pitchAngleLimit := s.intent.pitchAngleLimitDeg * 100
        let velocityPILimit := (1/2) * pitchAngleLimit
        let velocityInew := constrainf
          ((s.velocityI + (1/100) * cfg.velI * velocityError * sampleIntervalNormaliseFactor
              * s.intent.velocityItermRelax) * s.intent.proximityToLandingArea)
          (-velocityPILimit) velocityPILimit
        let velocityD0 := ((velocityError - s.previousVelocityError) / sampleIntervalNormaliseFactor)
          * cfg.velD
        let velocityDLpfNew := pt1FilterApply
          (pt1FilterUpdateCutoff s.velocityDLpf env.velocityDLpfGain) velocityD0
        let pitchAdjustmentNew := constrainf (velocityP + velocityInew + velocityDLpfNew.state)
          (-pitchAngleLimit) pitchAngleLimit
        (pitchAdjustmentNew, velocityError, velocityInew, velocityDLpfNew)
      else
        (s.pitchAdjustment, s.previousVelocityError, s.velocityI, s.velocityDLpf)
    let upsampleNew := pt3FilterApply s.velocityUpsampleLpf pitchState.1
    { s with rescueThrottle := rescueThrottleNew,
             throttleI := throttleInew,
             previousAltitudeError := altitudeError,
             throttleAdjustment := throttleAdjustmentNew,
             throttleDLpf := throttleDLpfNew,
             rescueYaw := rescueYawNew,
             gpsRescueAngleRoll := angleRollNew,
             pitchAdjustment := pitchState.1,
             previousVelocityError := pitchState.2.1,
             velocityI := pitchState.2.2.1,
             velocityDLpf := pitchState.2.2.2,
             velocityUpsampleLpf := upsampleNew,
             gpsRescueAnglePitch := upsampleNew.state }

/-- The phase chosen by the failure-escalation switch of
    `performSanityChecks` (source lines: the `rescueState.failure !=
    RESCUE_HEALTHY` block): default `RESCUE_DO_NOTHING`, overridden to
    `RESCUE_ABORT` per the sanity policy. -/
def sanityEscalation (cfg : Config) (hardFailsafe homeFix : Bool) : RescuePhase :=
  match cfg.sanityChecks with
  | RESCUE_SANITY_ON => RESCUE_ABORT
  | RESCUE_SANITY_FS_ONLY =>
    if hardFailsafe then RESCUE_ABORT else RESCUE_DO_NOTHING
  | RESCUE_SANITY_OFF =>
    if cfg.allowArmingWithoutFix && !homeFix && hardFailsafe then RESCUE_ABORT
    else RESCUE_DO_NOTHING

/-- Everything `performSanityChecks` does before its 1 Hz gate: the idle
    reset, the initialize seeding, the failure escalation, crash-flip
    disarm, and the GPS-health failure classification.  Returns the updated
    state and whether the idle early-return was taken. -/
def performSanityChecksPre (cfg : Config) (env : Env) (s : GState) : GState × Bool :=
  if s.phase = RESCUE_IDLE then
    ({ s with failure := RESCUE_HEALTHY }, true)
  else
    let s :=
      if s.phase = RESCUE_INITIALIZE then
        { s with previousTimeUs := env.currentTimeUs,
                 prevAltitudeCm := s.sensor.currentAltitudeCm,
                 prevTargetAltitudeCm := s.intent.targetAltitudeCm,
                 previousDistanceToHomeCm := s.sensor.distanceToHomeCm,
                 secondsLowSats := 0, secondsDoingNothing := 0 }
      else s
    let s :=
      if s.failure ≠ RESCUE_HEALTHY then
        { s with phase := sanityEscalation cfg (!env.rxIsReceivingSignal) env.gpsFixHome }
      else s
    let s :=
      if env.crashRecoveryModeActive then
        rescueStop (disarmWith DISARM_REASON_CRASH_PROTECTION s)
      else s
    let s := if !s.sensor.healthy then { s with failure := RESCUE_GPSLOST } else s
    (s, false)

/-- The 1 Hz flyaway check of `performSanityChecks` during
    `RESCUE_FLY_HOME`: the approach-velocity test steps `secondsFailing`
    (clamped to [0, 15]); on saturation either the one-shot magnetometer
    disable or `RESCUE_FLYAWAY`. -/
def sanityFlyHomeCheck (cfg : Config) (env : Env) (s : GState) : GState :=
  if s.phase = RESCUE_FLY_HOME then
    let velocityToHomeCmS := s.previousDistanceToHomeCm - s.sensor.distanceToHomeCm
    let s := { s with previousDistanceToHomeCm := s.sensor.distanceToHomeCm }
    let sf := constrain
      (s.intent.secondsFailing +
        (if velocityToHomeCmS < (1/2) * s.intent.targetVelocityCmS then 1 else -1)) 0 15
    let s := { s with intent := { s.intent with secondsFailing := sf } }
    if sf = 15 then
      if env.sensorsMag && cfg.useMag && !s.magForceDisable then
        { s with magForceDisable := true, intent := { s.intent with secondsFailing := 0 } }
      else
        { s with failure := RESCUE_FLYAWAY }
    else s
  else s

/-- The 1 Hz low-satellite check of `performSanityChecks`: step
    `secondsLowSats` (clamped to [0, 10]); `RESCUE_LOWSATS` on saturation. -/
def sanityLowSatsCheck (cfg : Config) (env : Env) (s : GState) : GState :=
  let sls := constrain
    (s.secondsLowSats + (if !env.gpsFix || env.numSat < cfg.gpsMinSatCount then 1 else -1)) 0 10
  let s := { s with secondsLowSats := sls }
  if sls = 10 then { s with failure := RESCUE_LOWSATS } else s

/-- The 1 Hz stuck-altitude escalations of `performSanityChecks`, keyed on
    the ratio of actual to target altitude change over the last second
    (total ℚ division stands in for the C float division). -/
def sanityStuckCheck (s : GState) : GState :=
  let ratioValue := (s.sensor.currentAltitudeCm - s.prevAltitudeCm)
    / (s.intent.targetAltitudeCm - s.prevTargetAltitudeCm)
  let s2 := { s with prevAltitudeCm := s.sensor.currentAltitudeCm,
                     prevTargetAltitudeCm := s.intent.targetAltitudeCm }
  match s.phase with
  | RESCUE_LANDING =>
    let sf := constrain (s2.intent.secondsFailing + (if ratioValue > 1/2 then -1 else 1)) 0 10
    let s3 := { s2 with intent := { s2.intent with secondsFailing := sf } }
    if sf = 10 then { s3 with phase := RESCUE_ABORT } else s3
  | RESCUE_ATTAIN_ALT =>
    let sf := constrain (s2.intent.secondsFailing + (if ratioValue > 1/2 then -1 else 1)) 0 10
    let s3 := { s2 with intent := { s2.intent with secondsFailing := sf } }
    if sf = 10 then
      { s3 with phase := RESCUE_LANDING, intent := { s3.intent with secondsFailing := 0 } }
    else s3
  | RESCUE_DESCENT =>
    let sf := constrain (s2.intent.secondsFailing + (if ratioValue > 1/2 then -1 else 1)) 0 10
    let s3 := { s2 with intent := { s2.intent with secondsFailing := sf } }
    if sf = 10 then
      { s3 with phase := RESCUE_LANDING, intent := { s3.intent with secondsFailing := 0 } }
    else s3
  | RESCUE_DO_NOTHING =>
    let sdn := cMIN (s2.secondsDoingNothing + 1) 20
    let s3 := { s2 with secondsDoingNothing := sdn }
    if sdn = 20 then { s3 with phase := RESCUE_ABORT } else s3
  | _ => s2

/-- The 1 Hz body of `performSanityChecks`: stamp the evaluation time, then
    the flyaway, low-satellite and stuck-altitude checks in source order. -/
def performSanityChecksOneHz (cfg : Config) (env : Env) (s : GState) : GState :=
  sanityStuckCheck (sanityLowSatsCheck cfg env
    (sanityFlyHomeCheck cfg env { s with previousTimeUs := env.currentTimeUs }))

/-- `performSanityChecks`: the pre part every tick, the 1 Hz body only when a
    second has elapsed on the wall clock since the last 1 Hz evaluation. -/
def performSanityChecks (cfg : Config) (env : Env) (s : GState) : GState :=
  let pre := performSanityChecksPre cfg env s
  if pre.2 then pre.1
  else
    let s := pre.1
    if env.currentTimeUs - s.previousTimeUs < 1000000 then s
    else performSanityChecksOneHz cfg env s

/-- `sensorUpdate`: every tick refresh the altitude interval, altitude,
    GPS health, the landing-phase acceleration magnitude, and the heading
    error; only on new GPS data refresh the distances, ground speed, GPS
    interval and velocity to home. -/
def sensorUpdate (env : Env) (s : GState) : GState :=
  let s := { s with
    sensor := { s.sensor with
      altitudeDataIntervalSeconds :=
        ((env.currentTimeUs - s.previousAltitudeDataTimeUs : ℤ) : ℚ) * (1/1000000),
      currentAltitudeCm := env.getAltitude,
      healthy := env.gpsIsHealthy },
    previousAltitudeDataTimeUs := env.currentTimeUs }
  let s :=
    if s.phase = RESCUE_LANDING then
      { s with sensor := { s.sensor with accMagnitude := env.accMagnitudeComputed } }
    else s
  let errorAngle0 := ((env.attitudeYaw - env.GPS_directionToHome : ℤ) : ℚ) * (1/10)
  let errorAngle :=
    if errorAngle0 ≤ -180 then errorAngle0 + 360
    else if errorAngle0 > 180 then errorAngle0 - 360
    else errorAngle0
  let s := { s with sensor := { s.sensor with
    directionToHome := env.GPS_directionToHome,
    errorAngle := errorAngle,
    absErrorAngle := fabsf errorAngle } }
  if !env.newGPSData then s
  else
    let distanceToHomeCm := env.GPS_distanceToHomeCm
    let gpsDataIntervalSeconds := env.getGpsDataIntervalSeconds
    { s with
      sensor := { s.sensor with
        distanceToHomeCm := distanceToHomeCm,
        distanceToHomeM := distanceToHomeCm / 100,
        groundSpeedCmS := env.gpsGroundSpeed,
        gpsDataIntervalSeconds := gpsDataIntervalSeconds,
        velocityToHomeCmS :=
          (s.prevDistanceToHomeCm - distanceToHomeCm) / gpsDataIntervalSeconds },
      prevDistanceToHomeCm := distanceToHomeCm }

/-- `checkGPSRescueIsAvailable`, with its static latches; stores the result
    where `gpsRescueUpdate` assigns it, `rescueState.isAvailable`. -/
def checkGPSRescueIsAvailable (cfg : Config) (env : Env) (s : GState) : GState :=
  if !env.gpsIsHealthy || !env.gpsFixHome then
    { s with isAvailable := false }
  else if env.currentTimeUs - s.availPreviousTimeUs < 1000000 then
    { s with isAvailable := !(s.availNoGPSfix || s.availLowsats) }
  else
    let s := { s with availPreviousTimeUs := env.currentTimeUs }
    let noGPSfix := !env.gpsFix
    let sls := constrain
      (s.availSecondsLowSats + (if env.numSat < cfg.gpsMinSatCount then 1 else -1)) 0 2
    let lowsats := sls = 2
    { s with availNoGPSfix := noGPSfix, availSecondsLowSats := sls,
             availLowsats := lowsats,
             isAvailable := !noGPSfix && !(decide lowsats) }

/-- `disarmOnImpact`: disarm with reason `DISARM_REASON_GPS_RESCUE` when the
    held acceleration magnitude exceeds the disarm threshold. -/
def disarmOnImpact (s : GState) : GState :=
  if s.sensor.accMagnitude > s.intent.disarmThreshold then
    rescueStop (disarmWith DISARM_REASON_GPS_RESCUE s)
  else s

/-- `descend`: on new GPS data refresh the landing-approach attenuations;
    every tick step the target altitude down, attenuated below 20 m of
    return altitude and sped up by the descent-rate modifier. -/
def descend (cfg : Config) (env : Env) (s : GState) : GState :=
  let s :=
    if env.newGPSData then
      let distanceToLandingAreaM :=
        s.sensor.distanceToHomeM - s.intent.targetLandingAltitudeCm / 200
      let proximity := constrainf (distanceToLandingAreaM / s.intent.descentDistanceM) 0 1
      { s with intent := { s.intent with
          proximityToLandingArea := proximity,
          velocityPidCutoffModifier := 5/2 - proximity,
          targetVelocityCmS := cfg.rescueGroundspeed * proximity,
          rollAngleLimitDeg := cfg.maxRescueAngle * proximity } }
    else s
  let altitudeStep0 := -1 * s.sensor.altitudeDataIntervalSeconds * cfg.descendRate
  let descentAttenuator := s.intent.returnAltitudeCm / 2000
  let altitudeStep := if descentAttenuator < 1 then altitudeStep0 * descentAttenuator
                      else altitudeStep0
  let descentRateModifier := constrainf (s.intent.targetAltitudeCm / 5000) 0 1
  { s with intent := { s.intent with
      altitudeStep := altitudeStep,
      descentRateModifier := descentRateModifier,
      targetAltitudeCm :=
        s.intent.targetAltitudeCm + altitudeStep * (1 + 2 * descentRateModifier) } }

/-- Boolean form of a rational comparison, for the source's bool-typed
    locals such as `currentAltitudeLow`. -/
def qlt (x y : ℚ) : Bool := if x < y then true else false

/-- The pure vertical-descent landing profile configured when a rescue is
    initiated inside `minRescueDth` but not aborted: zero forward velocity,
    flat pitch and roll, zero proximity, landing starts from the current
    altitude. -/
def initializeLandingProfile (cfg : Config) (s : GState) : GState :=
  let altitudeStep := -s.sensor.altitudeDataIntervalSeconds * cfg.descendRate
  { s with phase := RESCUE_LANDING,
           intent := { s.intent with
             altitudeStep := altitudeStep,
             targetVelocityCmS := 0,
             pitchAngleLimitDeg := 0,
             rollAngleLimitDeg := 0,
             proximityToLandingArea := 0,
             targetAltitudeCm := s.sensor.currentAltitudeCm + altitudeStep } }

/-- The `RESCUE_INITIALIZE` case of the `gpsRescueUpdate` switch: set the
    landing altitude, classify `RESCUE_NO_HOME_POINT` without a home fix,
    abort or land when inside the minimum rescue distance, and otherwise
    configure and enter the climb. -/
def initializeCase (cfg : Config) (env : Env) (s : GState) : GState :=
  let s := { s with intent := { s.intent with
    targetLandingAltitudeCm := 100 * cfg.targetLandingAltitudeM } }
  if !env.gpsFixHome then
    { s with failure := RESCUE_NO_HOME_POINT }
  else if s.sensor.distanceToHomeM < cfg.minRescueDth then
    if s.sensor.distanceToHomeM < (5:ℚ) then
      if s.sensor.currentAltitudeCm < s.intent.targetLandingAltitudeCm then
        { s with phase := RESCUE_ABORT }
      else initializeLandingProfile cfg s
    else initializeLandingProfile cfg s
  else
    { s with phase := RESCUE_ATTAIN_ALT,
             initialAltitudeLow := qlt s.sensor.currentAltitudeCm s.intent.returnAltitudeCm,
             intent := { s.intent with
               secondsFailing := 0,
               yawAttenuator := 0,
               targetVelocityCmS := s.sensor.velocityToHomeCmS,
               pitchAngleLimitDeg := 0,
               rollAngleLimitDeg := 0,
               altitudeStep := 0,
               descentRateModifier := 0,
               velocityPidCutoffModifier := 1,
               proximityToLandingArea := 0,
               velocityItermRelax := 0 } }

/-- The `RESCUE_ATTAIN_ALT` case: step the target altitude toward the return
    altitude; on crossing it, snap to it and enter `RESCUE_ROTATE`. -/
def attainAltCase (cfg : Config) (env : Env) (s : GState) : GState :=
  let altitudeStep :=
    (if s.initialAltitudeLow then cfg.ascendRate else -1 * cfg.descendRate)
      * s.sensor.gpsRescueTaskIntervalSeconds
  let s := { s with intent := { s.intent with altitudeStep := altitudeStep } }
  let currentAltitudeLow := qlt s.sensor.currentAltitudeCm s.intent.returnAltitudeCm
  let s :=
    if s.initialAltitudeLow = currentAltitudeLow then
      { s with intent := { s.intent with
          targetAltitudeCm := s.intent.targetAltitudeCm + altitudeStep } }
    else
      { s with phase := RESCUE_ROTATE,
               intent := { s.intent with
                 targetAltitudeCm := s.intent.returnAltitudeCm, altitudeStep := 0 } }
  { s with intent := { s.intent with targetVelocityCmS := s.sensor.velocityToHomeCmS } }

/-- The `RESCUE_ROTATE` case: ramp the yaw attenuator, and once the heading
    error is below 30 degrees unlock pitch and enter `RESCUE_FLY_HOME`. -/
def rotateCase (cfg : Config) (env : Env) (s : GState) : GState :=
  let s :=
    if s.intent.yawAttenuator < 1 then
      { s with intent := { s.intent with
          yawAttenuator := s.intent.yawAttenuator + s.sensor.gpsRescueTaskIntervalSeconds } }
    else s
  let s :=
    if s.sensor.absErrorAngle < 30 then
      { s with phase := RESCUE_FLY_HOME,
               intent := { s.intent with
                 pitchAngleLimitDeg := cfg.maxRescueAngle,
                 secondsFailing := 0,
                 proximityToLandingArea := 1 } }
    else s
  { s with initialVelocityLow := qlt s.sensor.velocityToHomeCmS cfg.rescueGroundspeed,
           intent := { s.intent with targetVelocityCmS := s.sensor.velocityToHomeCmS } }

/-- The `RESCUE_FLY_HOME` case: finish the yaw ramp, glide the velocity
    target toward the rescue groundspeed, ramp the iTerm relax and the roll
    limit, and enter `RESCUE_DESCENT` on reaching the descent distance. -/
def flyHomeCase (cfg : Config) (env : Env) (s : GState) : GState :=
  let s :=
    if s.intent.yawAttenuator < 1 then
      { s with intent := { s.intent with
          yawAttenuator := s.intent.yawAttenuator + s.sensor.gpsRescueTaskIntervalSeconds } }
    else s
  let velocityTargetStep := s.sensor.gpsRescueTaskIntervalSeconds
    * (cfg.rescueGroundspeed - s.intent.targetVelocityCmS)
  let targetVelocityIsLow := qlt s.intent.targetVelocityCmS cfg.rescueGroundspeed
  let s :=
    if s.initialVelocityLow = targetVelocityIsLow then
      { s with intent := { s.intent with
          targetVelocityCmS := s.intent.targetVelocityCmS + velocityTargetStep } }
    else s
  let s := { s with intent := { s.intent with
    velocityItermRelax := s.intent.velocityItermRelax
      + (1/2) * s.sensor.gpsRescueTaskIntervalSeconds * (1 - s.intent.velocityItermRelax) } }
  let s := { s with intent := { s.intent with
    velocityPidCutoffModifier := 2 - s.intent.velocityItermRelax,
    rollAngleLimitDeg := (1/2) * s.intent.velocityItermRelax * cfg.maxRescueAngle } }
  if env.newGPSData then
    if s.sensor.distanceToHomeM ≤ s.intent.descentDistanceM then
      { s with phase := RESCUE_DESCENT, intent := { s.intent with secondsFailing := 0 } }
    else s
  else s

/-- The `RESCUE_DESCENT` case: drop to `RESCUE_LANDING` below the landing
    altitude, then run `descend`. -/
def descentCase (cfg : Config) (env : Env) (s : GState) : GState :=
  let s :=
    if s.sensor.currentAltitudeCm < s.intent.targetLandingAltitudeCm then
      { s with phase := RESCUE_LANDING, intent := { s.intent with secondsFailing := 0 } }
    else s
  descend cfg env s

/-- The `RESCUE_ABORT` case: disable arming, disarm with reason
    `DISARM_REASON_FAILSAFE`, reset the failure budget and stop. -/
def abortCase (s : GState) : GState :=
  rescueStop { (disarmWith DISARM_REASON_FAILSAFE s) with
    intent := { s.intent with secondsFailing := 0 } }

/-- The per-phase switch of `gpsRescueUpdate` (the body between
    `sensorUpdate` and `performSanityChecks`). -/
def rescuePhaseSwitch (cfg : Config) (env : Env) (s : GState) : GState :=
  match s.phase with
  | RESCUE_IDLE => setReturnAltitude cfg env s
  | RESCUE_INITIALIZE => initializeCase cfg env s
  | RESCUE_ATTAIN_ALT => attainAltCase cfg env s
  | RESCUE_ROTATE => rotateCase cfg env s
  | RESCUE_FLY_HOME => flyHomeCase cfg env s
  | RESCUE_DESCENT => descentCase cfg env s
  | RESCUE_LANDING => disarmOnImpact (descend cfg env s)
  | RESCUE_COMPLETE => rescueStop s
  | RESCUE_ABORT => abortCase s
  | RESCUE_DO_NOTHING => disarmOnImpact s

/-- The head of `gpsRescueUpdate`: leaving rescue mode stops the rescue;
    entering it while idle starts one and seeds `rescueAttainPosition` and
    `performSanityChecks` once. -/
def modeStep (cfg : Config) (env : Env) (s : GState) : GState :=
  if !env.flightModeGpsRescue then rescueStop s
  else if s.phase = RESCUE_IDLE then
    performSanityChecks cfg env (rescueAttainPosition cfg env (rescueStart s))
  else s

/-- The state `performSanityChecks` runs on inside `gpsRescueUpdate`: the
    mode handling, then `sensorUpdate`, `checkGPSRescueIsAvailable` and the
    per-phase switch. -/
def preSanityState (cfg : Config) (env : Env) (s : GState) : GState :=
  rescuePhaseSwitch cfg env (checkGPSRescueIsAvailable cfg env (sensorUpdate env (modeStep cfg env s)))

/-- `gpsRescueUpdate`: one task tick.  The mode handling, then sensors,
    availability, the phase switch, the sanity supervisor, and the
    controllers, in source order.  The module's `newGPSData` flag, set by
    the GPS task and cleared at the end of this function, is the
    `Env.newGPSData` sample of the tick. -/
def gpsRescueUpdate (cfg : Config) (env : Env) (s : GState) : GState :=
  rescueAttainPosition cfg env (performSanityChecks cfg env (preSanityState cfg env s))

/-- The module state at boot: C zero-initialized globals and statics, with
    the effects of `gpsRescueInit` — the task interval (100 Hz per the spec),
    `velocityPidCutoff = pitchCutoffHz/100`, `velocityPidCutoffModifier = 1`,
    and the three filter gains (transcendental expressions in π, so passed in
    as parameters).  The uninitialized statics `initialAltitudeLow` and
    `initialVelocityLow` are `true` per their declarations. -/
def initialState (cfg : Config) (throttleDGain velocityDGain upsampleGain : ℚ) : GState :=
  { phase := RESCUE_IDLE
    failure := RESCUE_HEALTHY
    sensor := { currentAltitudeCm := 0, distanceToHomeCm := 0, distanceToHomeM := 0,
                groundSpeedCmS := 0, directionToHome := 0, accMagnitude := 0,
                healthy := false, errorAngle := 0, gpsDataIntervalSeconds := 0,
                altitudeDataIntervalSeconds := 0,
                gpsRescueTaskIntervalSeconds := 1/100,
                velocityToHomeCmS := 0, absErrorAngle := 0 }
    intent := { maxAltitudeCm := 0, returnAltitudeCm := 0, targetAltitudeCm := 0,
                targetLandingAltitudeCm := 0, targetVelocityCmS := 0,
                pitchAngleLimitDeg := 0, rollAngleLimitDeg := 0, descentDistanceM := 0,
                secondsFailing := 0, altitudeStep := 0, descentRateModifier := 0,
                yawAttenuator := 0, disarmThreshold := 0,
                velocityPidCutoff := cfg.pitchCutoffHz / 100,
                velocityPidCutoffModifier := 1,
                proximityToLandingArea := 0, velocityItermRelax := 0 }
    isAvailable := false
    rescueThrottle := 0
    rescueYaw := 0
    gpsRescueAnglePitch := 0
    gpsRescueAngleRoll := 0
    magForceDisable := false
    throttleDLpf := { state := 0, state1 := 0, k := throttleDGain }
    velocityDLpf := { state := 0, k := velocityDGain }
    velocityUpsampleLpf := { state := 0, state1 := 0, state2 := 0, k := upsampleGain }
    previousVelocityError := 0
    velocityI := 0
    throttleI := 0
    previousAltitudeError := 0
    throttleAdjustment := 0
    pitchAdjustment := 0
    previousTimeUs := 0
    prevAltitudeCm := 0
    prevTargetAltitudeCm := 0
    previousDistanceToHomeCm := 0
    secondsLowSats := 0
    secondsDoingNothing := 0
    prevDistanceToHomeCm := 0
    previousAltitudeDataTimeUs := 0
    availPreviousTimeUs := 0
    availSecondsLowSats := 0
    availLowsats := false
    availNoGPSfix := false
    initialAltitudeLow := true
    initialVelocityLow := true
    disarmCalls := []
    armingDisabled := false }

/-- A run of the task: fold `gpsRescueUpdate` over a list of per-tick
    environment samples. -/
def run (cfg : Config) (envs : List Env) (s : GState) : GState :=
  envs.foldl (fun t e => gpsRescueUpdate cfg e t) s

/-- The state the 1 Hz body of the sanity supervisor examines during a tick
    (the pre part of `performSanityChecks` applied to the mid-update state). -/
def oneHzEvalState (cfg : Config) (env : Env) (s : GState) : GState :=
  (performSanityChecksPre cfg env (preSanityState cfg env s)).1

/-- A concrete, representative configuration used by the boundary-scenario
    theorems: `minRescueDth = 20 m`, `targetLandingAltitudeM = 1 m`,
    sanity checks Off, magnetometer in use. -/
def cfgX : Config :=
  { minRescueDth := 20, descentDistanceM := 20, initialAltitudeM := 30,
    rescueAltitudeBufferM := 10, altitudeMode := GPS_RESCUE_ALT_MODE_MAX,
    ascendRate := 750, descendRate := 100, rescueGroundspeed := 500,
    maxRescueAngle := 45, targetLandingAltitudeM := 1,
    throttleP := 15, throttleI := 15, throttleD := 15, throttleHover := 1275,
    throttleMin := 1100, throttleMax := 1700, yawP := 20, rollMix := 100,
    velP := 8, velI := 30, velD := 20, disarmThreshold := 20,
    sanityChecks := RESCUE_SANITY_OFF, allowArmingWithoutFix := false,
    useMag := true, pitchCutoffHz := 75, gps_set_home_point_once := false,
    yaw_control_reversed := false, gpsMinSatCount := 8 }

/-- A benign idle-tick environment: disarmed, not in rescue mode, healthy
    GPS with home fix, altitude 800 cm, receiver alive. -/
def envA : Env :=
  { currentTimeUs := 900000, flightModeGpsRescue := false, armed := false,
    getAltitude := 800, gpsIsHealthy := true, accMagnitudeComputed := 0,
    GPS_directionToHome := 0, attitudeYaw := 0, newGPSData := false,
    GPS_distanceToHomeCm := 0, gpsGroundSpeed := 0,
    getGpsDataIntervalSeconds := 1/10, rxIsReceivingSignal := true,
    crashRecoveryModeActive := false, gpsFix := true, gpsFixHome := true,
    numSat := 12, sensorsMag := true, rcCommandThrottle := 1500,
    getCosTiltAngle := 1, velocityDLpfGain := 1/2 }

/-- Rescue-mode activation at t = 1 s with no new GPS packet (used by the
    zero-divisor scenario: `returnAltitudeCm` is still its boot value 0). -/
def env0 : Env := { envA with currentTimeUs := 1000000, flightModeGpsRescue := true }

/-- Second tick of the zero-divisor scenario, one second later. -/
def env1 : Env := { env0 with currentTimeUs := 2000000 }

/-- Third tick of the zero-divisor scenario, one second later again. -/
def env2 : Env := { env0 with currentTimeUs := 3000000 }

/-- Activation tick for the within-5 m ground scenario: a fresh GPS packet
    reports 3 m to home, the altitude estimator reports 50 cm. -/
def env0c : Env :=
  { envA with
    currentTimeUs := 1000000
    flightModeGpsRescue := true
    newGPSData := true
    GPS_distanceToHomeCm := 300
    getAltitude := 50 }

/-- The tick after `env0c`, no new GPS packet. -/
def env1c : Env := { env0c with currentTimeUs := 2000000, newGPSData := false }

/-- The boot state under `cfgX` with all filter gains zero. -/
def s0 : GState := initialState cfgX 0 0 0

/-- One idle tick from boot: sensors are read once while idle, so
    `sensor.healthy` is already true when a rescue starts. -/
def sIdle : GState := gpsRescueUpdate cfgX envA s0

/-- A FlyHome state that is failing to close on home: 14 s already
    failing, target velocity 1000 cm/s, distance unchanged (previous 100 cm,
    current 0 with the boot sensor), used by the flyaway witness. -/
def sFly : GState :=
  { s0 with
    phase := RESCUE_FLY_HOME
    previousDistanceToHomeCm := 100
    intent := { s0.intent with targetVelocityCmS := 1000, secondsFailing := 14 } }

/-- A DoNothing state holding a stale acceleration magnitude of 3 g against
    a 2 g disarm threshold, used by the impact-detection witness. -/
def sDoNothing : GState :=
  { s0 with
    phase := RESCUE_DO_NOTHING
    sensor := { s0.sensor with accMagnitude := 3 }
    intent := { s0.intent with disarmThreshold := 2 } }

/-- The reachable state of the zero-divisor scenario: one idle tick, then a
    rescue activated with no prior GPS packet (`returnAltitudeCm` still 0),
    entering `Landing` whose altitude step is then fully attenuated, so the
    target altitude never moves. -/
def sZeroDiv : GState := run cfgX [envA, env0, env1] (initialState cfgX 0 0 0)

/-- C10's claim about the stuck-altitude divisor, exactly as the
    claim states it: at every reachable 1 Hz sanity evaluation in `Landing`,
    `AttainAlt` or `Descent`, the divisor `targetAltitudeCm −
    prevTargetAltitudeCm` is nonzero. -/
def stuckAltitudeDivisorClaim : Prop :=
  ∀ (g1 g2 g3 : ℚ) (cfg : Config) (envs : List Env) (env : Env),
    let s := run cfg envs (initialState cfg g1 g2 g3)
    let t := oneHzEvalState cfg env s
    (performSanityChecksPre cfg env (preSanityState cfg env s)).2 = false →
    1000000 ≤ env.currentTimeUs - t.previousTimeUs →
    (t.phase = RESCUE_LANDING ∨ t.phase = RESCUE_ATTAIN_ALT ∨ t.phase = RESCUE_DESCENT) →
    t.intent.targetAltitudeCm - t.prevTargetAltitudeCm ≠ 0

/-- C4's bounds: the failure budget, the low-satellite counter and the three
    0..1 gain schedules stay in range. -/
def C4Inv (s : GState) : Prop :=
  0 ≤ s.intent.secondsFailing ∧ s.intent.secondsFailing ≤ 15 ∧
  0 ≤ s.secondsLowSats ∧ s.secondsLowSats ≤ 10 ∧
  0 ≤ s.intent.yawAttenuator ∧ s.intent.yawAttenuator ≤ 1 ∧
  0 ≤ s.intent.velocityItermRelax ∧ s.intent.velocityItermRelax ≤ 1 ∧
  0 ≤ s.intent.proximityToLandingArea ∧ s.intent.proximityToLandingArea ≤ 1

/-- The yaw attenuator only ever holds multiples of the 10 ms task interval:
    the strengthening that makes the `yawAttenuator ≤ 1` bound inductive
    (the ramp guard `< 1` alone would allow a final overshoot). -/
def YawGrid (r : ℚ) : Prop := ∃ k : ℕ, k ≤ 100 ∧ r = (k : ℚ) / 100

/-- The inductive invariant behind C4: the claimed bounds, the yaw grid, and
    the constancy of the 100 Hz task interval. -/
def C4StrongInv (s : GState) : Prop :=
  C4Inv s ∧ YawGrid s.intent.yawAttenuator ∧
  s.sensor.gpsRescueTaskIntervalSeconds = 1/100

theorem constrain_bounds (a lo hi : ℤ) (h : lo ≤ hi) :
    lo ≤ constrain a lo hi ∧ constrain a lo hi ≤ hi := by
  unfold constrain
  split_ifs <;> omega

theorem constrainf_bounds (a lo hi : ℚ) (h : lo ≤ hi) :
    lo ≤ constrainf a lo hi ∧ constrainf a lo hi ≤ hi := by
  unfold constrainf
  split_ifs with h1 h2
  · exact ⟨le_refl _, h⟩
  · exact ⟨h, le_refl _⟩
  · exact ⟨le_of_not_lt h1, le_of_not_lt h2⟩

theorem fabsf_eq_abs (q : ℚ) : fabsf q = |q| := by
  unfold fabsf
  split_ifs with h
  · exact (abs_of_neg h).symm
  · exact (abs_of_nonneg (le_of_not_lt h)).symm

theorem rescueAttainPosition_phase (cfg : Config) (env : Env) (s : GState) :
    (rescueAttainPosition cfg env s).phase = s.phase := by
  cases hp : s.phase <;> simp [rescueAttainPosition, hp]

theorem sanityEscalation_ne_idle (cfg : Config) (hardFailsafe homeFix : Bool) :
    sanityEscalation cfg hardFailsafe homeFix ≠ RESCUE_IDLE := by
  unfold sanityEscalation
  cases cfg.sanityChecks <;> simp <;> split_ifs <;> simp

theorem sensorUpdate_errorAngle (env : Env) (s : GState) :
    (sensorUpdate env s).sensor.errorAngle =
      (let e0 := ((env.attitudeYaw - env.GPS_directionToHome : ℤ) : ℚ) * (1/10)
       if e0 ≤ -180 then e0 + 360 else if e0 > 180 then e0 - 360 else e0) ∧
    (sensorUpdate env s).sensor.absErrorAngle =
      fabsf (sensorUpdate env s).sensor.errorAngle := by
  unfold sensorUpdate
  dsimp only
  split <;> split <;> simp

/-- C7: after every `sensorUpdate`, `errorAngle` equals
    `(yaw_deg×10 − directionToHome_deg×10)/10` normalized into (−180, 180] —
    it lies in that interval and differs from the raw scaled difference by a
    multiple of 360 — and `absErrorAngle` is its absolute value, for all yaw
    and direction-to-home samples in the deg×10 sensor ranges [0, 3600). -/
theorem C7_errorAngle_normalization (env : Env) (s : GState)
    (hy0 : 0 ≤ env.attitudeYaw) (hy1 : env.attitudeYaw < 3600)
    (hd0 : 0 ≤ env.GPS_directionToHome) (hd1 : env.GPS_directionToHome < 3600) :
    (-180 < (sensorUpdate env s).sensor.errorAngle ∧
      (sensorUpdate env s).sensor.errorAngle ≤ 180) ∧
    ((sensorUpdate env s).sensor.errorAngle =
        ((env.attitudeYaw - env.GPS_directionToHome : ℤ) : ℚ) * (1/10) ∨
     (sensorUpdate env s).sensor.errorAngle =
        ((env.attitudeYaw - env.GPS_directionToHome : ℤ) : ℚ) * (1/10) + 360 ∨
     (sensorUpdate env s).sensor.errorAngle =
        ((env.attitudeYaw - env.GPS_directionToHome : ℤ) : ℚ) * (1/10) - 360) ∧
    (sensorUpdate env s).sensor.absErrorAngle =
      |(sensorUpdate env s).sensor.errorAngle| := by
  obtain ⟨he, ha⟩ := sensorUpdate_errorAngle env s
  have hb1 : ((env.attitudeYaw - env.GPS_directionToHome : ℤ) : ℚ) * (1/10) < 360 := by
    have h1 : ((env.attitudeYaw - env.GPS_directionToHome : ℤ) : ℚ) < 3600 := by
      exact_mod_cast (by omega : (env.attitudeYaw - env.GPS_directionToHome : ℤ) < 3600)
    linarith
  have hb2 : -360 < ((env.attitudeYaw - env.GPS_directionToHome : ℤ) : ℚ) * (1/10) := by
    have h1 : (-3600 : ℚ) < ((env.attitudeYaw - env.GPS_directionToHome : ℤ) : ℚ) := by
      exact_mod_cast (by omega : (-3600 : ℤ) < env.attitudeYaw - env.GPS_directionToHome)
    linarith
  refine ⟨?_, ?_, ?_⟩
  · rw [he]; dsimp only
    split_ifs with h1 h2 <;> constructor <;> linarith
  · rw [he]; dsimp only
    split_ifs with h1 h2
    · right; left; ring
    · right; right; ring
    · left; rfl
  · rw [ha, fabsf_eq_abs]

/-- Witness for C7 at yaw = 3500 (350.0°), direction to home = 100 (10.0°):
    the raw difference is 340°, normalized to −20°. -/
theorem C7_witness :
    (0 ≤ (3500 : ℤ) ∧ (3500 : ℤ) < 3600 ∧ 0 ≤ (100 : ℤ) ∧ (100 : ℤ) < 3600) ∧
    (-180 < (sensorUpdate { envA with attitudeYaw := 3500, GPS_directionToHome := 100 } s0).sensor.errorAngle ∧
      (sensorUpdate { envA with attitudeYaw := 3500, GPS_directionToHome := 100 } s0).sensor.errorAngle ≤ 180) := by
  refine ⟨by decide, ?_⟩
  exact (C7_errorAngle_normalization
    { envA with attitudeYaw := 3500, GPS_directionToHome := 100 } s0
    (by decide) (by decide) (by decide) (by decide)).1

theorem performSanityChecksPre_spec (cfg : Config) (env : Env) (s : GState)
    (hphase : s.phase ≠ RESCUE_IDLE)
    (hfail : s.failure ≠ RESCUE_HEALTHY)
    (hcrash : env.crashRecoveryModeActive = false) :
    (performSanityChecksPre cfg env s).2 = false ∧
    (performSanityChecksPre cfg env s).1.phase
      = sanityEscalation cfg (!env.rxIsReceivingSignal) env.gpsFixHome ∧
    (performSanityChecksPre cfg env s).1.previousTimeUs
      = (if s.phase = RESCUE_INITIALIZE then env.currentTimeUs else s.previousTimeUs) := by
  unfold performSanityChecksPre
  rw [if_neg hphase]
  by_cases hi : s.phase = RESCUE_INITIALIZE <;>
    simp [hi, hfail, hcrash] <;> split_ifs <;> simp

/-- C2: on a tick where `failure ≠ Healthy` — the rescue not being idle, the
    crash-flip path inactive, and the 1 Hz body not due — the sanity
    supervisor sets the phase to `DoNothing`, except that it sets `Abort`
    when sanity checks are On; or when they are FsOnly and the receiver has
    no signal; or when they are neither On nor FsOnly and arming without a
    fix is allowed, there is no home fix, and the receiver has no signal. -/
theorem C2_sanity_escalation (cfg : Config) (env : Env) (s : GState)
    (hphase : s.phase ≠ RESCUE_IDLE)
    (hfail : s.failure ≠ RESCUE_HEALTHY)
    (hcrash : env.crashRecoveryModeActive = false)
    (htime : env.currentTimeUs - s.previousTimeUs < 1000000) :
    (performSanityChecks cfg env s).phase =
      (if cfg.sanityChecks = RESCUE_SANITY_ON then RESCUE_ABORT
       else if cfg.sanityChecks = RESCUE_SANITY_FS_ONLY then
         (if env.rxIsReceivingSignal then RESCUE_DO_NOTHING else RESCUE_ABORT)
       else if cfg.allowArmingWithoutFix = true ∧ env.gpsFixHome = false ∧
               env.rxIsReceivingSignal = false then RESCUE_ABORT
       else RESCUE_DO_NOTHING) := by
  obtain ⟨h2, hph, hprev⟩ := performSanityChecksPre_spec cfg env s hphase hfail hcrash
  have hgate : env.currentTimeUs - (performSanityChecksPre cfg env s).1.previousTimeUs
      < 1000000 := by
    rw [hprev]; split_ifs <;> omega
  have hout : performSanityChecks cfg env s = (performSanityChecksPre cfg env s).1 := by
    unfold performSanityChecks
    simp only [h2, Bool.false_eq_true, if_false, if_pos hgate]
  rw [hout, hph]
  unfold sanityEscalation
  cases hsc : cfg.sanityChecks <;> simp [hsc] <;>
    cases hr : env.rxIsReceivingSignal <;>
    cases hh : env.gpsFixHome <;>
    cases hw : cfg.allowArmingWithoutFix <;> simp

/-- Witness for C2: a flyaway failure in `FlyHome` with sanity checks Off,
    arming-without-fix disallowed: the supervisor parks the craft in
    `DoNothing`. -/
theorem C2_witness :
    (({ s0 with phase := RESCUE_FLY_HOME, failure := RESCUE_FLYAWAY } : GState).phase
        ≠ RESCUE_IDLE ∧
     ({ s0 with phase := RESCUE_FLY_HOME, failure := RESCUE_FLYAWAY } : GState).failure
        ≠ RESCUE_HEALTHY) ∧
    (performSanityChecks cfgX envA
        { s0 with phase := RESCUE_FLY_HOME, failure := RESCUE_FLYAWAY }).phase
      = RESCUE_DO_NOTHING := by
  refine ⟨by decide, ?_⟩
  have h := C2_sanity_escalation cfgX envA
    { s0 with phase := RESCUE_FLY_HOME, failure := RESCUE_FLYAWAY }
    (by decide) (by decide) (by decide) (by with_unfolding_all decide)
  rw [h]
  with_unfolding_all decide

theorem sensorUpdate_frame (env : Env) (s : GState) :
    (sensorUpdate env s).phase = s.phase ∧
    (sensorUpdate env s).failure = s.failure ∧
    (sensorUpdate env s).intent = s.intent ∧
    (sensorUpdate env s).previousTimeUs = s.previousTimeUs ∧
    (sensorUpdate env s).prevAltitudeCm = s.prevAltitudeCm ∧
    (sensorUpdate env s).prevTargetAltitudeCm = s.prevTargetAltitudeCm ∧
    (sensorUpdate env s).previousDistanceToHomeCm = s.previousDistanceToHomeCm ∧
    (sensorUpdate env s).secondsLowSats = s.secondsLowSats ∧
    (sensorUpdate env s).secondsDoingNothing = s.secondsDoingNothing ∧
    (sensorUpdate env s).disarmCalls = s.disarmCalls ∧
    (sensorUpdate env s).magForceDisable = s.magForceDisable ∧
    (sensorUpdate env s).initialAltitudeLow = s.initialAltitudeLow ∧
    (sensorUpdate env s).sensor.currentAltitudeCm = env.getAltitude ∧
    (sensorUpdate env s).sensor.healthy = env.gpsIsHealthy ∧
    (sensorUpdate env s).sensor.gpsRescueTaskIntervalSeconds
      = s.sensor.gpsRescueTaskIntervalSeconds := by
  unfold sensorUpdate
  dsimp only
  split <;> split <;> simp

theorem sensorUpdate_noGPS_frame (env : Env) (s : GState) (h : env.newGPSData = false) :
    (sensorUpdate env s).sensor.distanceToHomeCm = s.sensor.distanceToHomeCm ∧
    (sensorUpdate env s).sensor.distanceToHomeM = s.sensor.distanceToHomeM ∧
    (sensorUpdate env s).sensor.groundSpeedCmS = s.sensor.groundSpeedCmS ∧
    (sensorUpdate env s).sensor.gpsDataIntervalSeconds = s.sensor.gpsDataIntervalSeconds ∧
    (sensorUpdate env s).sensor.velocityToHomeCmS = s.sensor.velocityToHomeCmS ∧
    (sensorUpdate env s).prevDistanceToHomeCm = s.prevDistanceToHomeCm := by
  unfold sensorUpdate
  simp [h]
  split <;> simp

theorem sensorUpdate_accMagnitude (env : Env) (s : GState) :
    (sensorUpdate env s).sensor.accMagnitude =
      (if s.phase = RESCUE_LANDING then env.accMagnitudeComputed
       else s.sensor.accMagnitude) := by
  unfold sensorUpdate
  dsimp only
  split <;> split <;> simp_all

theorem checkGPSRescueIsAvailable_frame (cfg : Config) (env : Env) (s : GState) :
    (checkGPSRescueIsAvailable cfg env s).phase = s.phase ∧
    (checkGPSRescueIsAvailable cfg env s).failure = s.failure ∧
    (checkGPSRescueIsAvailable cfg env s).sensor = s.sensor ∧
    (checkGPSRescueIsAvailable cfg env s).intent = s.intent ∧
    (checkGPSRescueIsAvailable cfg env s).previousTimeUs = s.previousTimeUs ∧
    (checkGPSRescueIsAvailable cfg env s).prevAltitudeCm = s.prevAltitudeCm ∧
    (checkGPSRescueIsAvailable cfg env s).prevTargetAltitudeCm = s.prevTargetAltitudeCm ∧
    (checkGPSRescueIsAvailable cfg env s).previousDistanceToHomeCm
      = s.previousDistanceToHomeCm ∧
    (checkGPSRescueIsAvailable cfg env s).secondsLowSats = s.secondsLowSats ∧
    (checkGPSRescueIsAvailable cfg env s).secondsDoingNothing = s.secondsDoingNothing ∧
    (checkGPSRescueIsAvailable cfg env s).disarmCalls = s.disarmCalls ∧
    (checkGPSRescueIsAvailable cfg env s).magForceDisable = s.magForceDisable ∧
    (checkGPSRescueIsAvailable cfg env s).initialAltitudeLow = s.initialAltitudeLow := by
  unfold checkGPSRescueIsAvailable
  split <;> (try split) <;> simp

theorem rescueAttainPosition_intent_frame (cfg : Config) (env : Env) (s : GState)
    (h : s.phase ≠ RESCUE_INITIALIZE) :
    (rescueAttainPosition cfg env s).intent = s.intent := by
  cases hp : s.phase <;> simp [rescueAttainPosition, hp] <;> simp [hp] at h

theorem rescueAttainPosition_failure (cfg : Config) (env : Env) (s : GState) :
    (rescueAttainPosition cfg env s).failure = s.failure ∧
    (rescueAttainPosition cfg env s).disarmCalls = s.disarmCalls := by
  cases hp : s.phase <;> simp [rescueAttainPosition, hp]

theorem performSanityChecks_quiet (cfg : Config) (env : Env) (s : GState)
    (h1 : s.phase ≠ RESCUE_IDLE) (h2 : s.phase ≠ RESCUE_INITIALIZE)
    (h3 : s.failure = RESCUE_HEALTHY) (h4 : env.crashRecoveryModeActive = false)
    (h5 : env.currentTimeUs - s.previousTimeUs < 1000000) :
    performSanityChecks cfg env s =
      (if !s.sensor.healthy then { s with failure := RESCUE_GPSLOST } else s) := by
  have hpre : performSanityChecksPre cfg env s =
      ((if !s.sensor.healthy then { s with failure := RESCUE_GPSLOST } else s), false) := by
    unfold performSanityChecksPre
    rw [if_neg h1]
    cases hh : s.sensor.healthy <;> simp [h2, h3, h4, hh]
  have hprev : (if !s.sensor.healthy then { s with failure := RESCUE_GPSLOST } else s).previousTimeUs
      = s.previousTimeUs := by
    split <;> rfl
  unfold performSanityChecks
  rw [hpre]
  dsimp only
  rw [if_neg (by simp : ¬ (false = true)), if_pos (by rw [hprev]; exact h5)]

/-- C1 (amended): at the Initialize phase, with a home point present
    (`GPS_FIX_HOME`, which the original claim leaves implicit), on a quiet
    tick (healthy failure state, no crash-flip, no new GPS packet, 1 Hz body
    not due): if `distanceToHomeM < minRescueDth` then — if it is also below
    5 m and the current altitude is below the landing altitude, the phase
    after the update is `Abort`; otherwise it is `Landing` with
    `targetVelocityCmS = 0`, `pitchAngleLimitDeg = 0`,
    `rollAngleLimitDeg = 0` and `proximityToLandingArea = 0`. -/
theorem C1_initialize_close_to_home (cfg : Config) (env : Env) (s : GState)
    (hphase : s.phase = RESCUE_INITIALIZE)
    (hmode : env.flightModeGpsRescue = true)
    (hfail : s.failure = RESCUE_HEALTHY)
    (hcrash : env.crashRecoveryModeActive = false)
    (hgps : env.newGPSData = false)
    (hhome : env.gpsFixHome = true)
    (htime : env.currentTimeUs - s.previousTimeUs < 1000000)
    (hdist : s.sensor.distanceToHomeM < cfg.minRescueDth) :
    ((s.sensor.distanceToHomeM < 5 ∧ env.getAltitude < 100 * cfg.targetLandingAltitudeM) →
      (gpsRescueUpdate cfg env s).phase = RESCUE_ABORT) ∧
    (¬ (s.sensor.distanceToHomeM < 5 ∧ env.getAltitude < 100 * cfg.targetLandingAltitudeM) →
      (gpsRescueUpdate cfg env s).phase = RESCUE_LANDING ∧
      (gpsRescueUpdate cfg env s).intent.targetVelocityCmS = 0 ∧
      (gpsRescueUpdate cfg env s).intent.pitchAngleLimitDeg = 0 ∧
      (gpsRescueUpdate cfg env s).intent.rollAngleLimitDeg = 0 ∧
      (gpsRescueUpdate cfg env s).intent.proximityToLandingArea = 0) := by
  have hm : modeStep cfg env s = s := by
    unfold modeStep
    rw [hmode]
    simp [hphase]
  obtain ⟨f1, f2, f3, f4, -, -, -, -, -, -, -, -, f13, -, -⟩ := sensorUpdate_frame env s
  obtain ⟨g1, g2, -, -, -, -⟩ := sensorUpdate_noGPS_frame env s hgps
  obtain ⟨a1, a2, a3, a4, a5, -⟩ :=
    checkGPSRescueIsAvailable_frame cfg env (sensorUpdate env s)
  have hpresan : preSanityState cfg env s =
      initializeCase cfg env (checkGPSRescueIsAvailable cfg env (sensorUpdate env s)) := by
    unfold preSanityState
    rw [hm]
    unfold rescuePhaseSwitch
    rw [a1, f1, hphase]
  have hd2 : (checkGPSRescueIsAvailable cfg env (sensorUpdate env s)).sensor.distanceToHomeM
      = s.sensor.distanceToHomeM := by rw [a3, g2]
  have hc2 : (checkGPSRescueIsAvailable cfg env (sensorUpdate env s)).sensor.currentAltitudeCm
      = env.getAltitude := by rw [a3, f13]
  constructor
  · rintro ⟨hA1, hA2⟩
    have hIC : initializeCase cfg env (checkGPSRescueIsAvailable cfg env (sensorUpdate env s))
        = { checkGPSRescueIsAvailable cfg env (sensorUpdate env s) with
            phase := RESCUE_ABORT,
            intent := { (checkGPSRescueIsAvailable cfg env (sensorUpdate env s)).intent with
              targetLandingAltitudeCm := 100 * cfg.targetLandingAltitudeM } } := by
      unfold initializeCase
      simp only [hhome, Bool.not_true, Bool.false_eq_true, if_false]
      rw [if_pos (by simpa [hd2] using hdist),
          if_pos (by simpa [hd2] using hA1),
          if_pos (by simpa [hc2] using hA2)]
    have hfail3 : ({ checkGPSRescueIsAvailable cfg env (sensorUpdate env s) with
        phase := RESCUE_ABORT,
        intent := { (checkGPSRescueIsAvailable cfg env (sensorUpdate env s)).intent with
          targetLandingAltitudeCm := 100 * cfg.targetLandingAltitudeM } } : GState).failure
        = RESCUE_HEALTHY := by
      simp only [a2, f2]
      exact hfail
    have htime3 : env.currentTimeUs -
        ({ checkGPSRescueIsAvailable cfg env (sensorUpdate env s) with
           phase := RESCUE_ABORT,
           intent := { (checkGPSRescueIsAvailable cfg env (sensorUpdate env s)).intent with
             targetLandingAltitudeCm := 100 * cfg.targetLandingAltitudeM } } : GState).previousTimeUs
        < 1000000 := by
      simp only [a5, f4]
      exact htime
    have hq := performSanityChecks_quiet cfg env _ (by simp) (by simp) hfail3 hcrash htime3
    unfold gpsRescueUpdate
    rw [hpresan, hIC, hq]
    rw [rescueAttainPosition_phase]
    split <;> rfl
  · intro hB
    have hIC : initializeCase cfg env (checkGPSRescueIsAvailable cfg env (sensorUpdate env s))
        = { checkGPSRescueIsAvailable cfg env (sensorUpdate env s) with
            phase := RESCUE_LANDING,
            intent := { (checkGPSRescueIsAvailable cfg env (sensorUpdate env s)).intent with
              targetLandingAltitudeCm := 100 * cfg.targetLandingAltitudeM,
              altitudeStep := -(checkGPSRescueIsAvailable cfg env (sensorUpdate env s)).sensor.altitudeDataIntervalSeconds * cfg.descendRate,
              targetVelocityCmS := 0,
              pitchAngleLimitDeg := 0,
              rollAngleLimitDeg := 0,
              proximityToLandingArea := 0,
              targetAltitudeCm := (checkGPSRescueIsAvailable cfg env (sensorUpdate env s)).sensor.currentAltitudeCm
                + -(checkGPSRescueIsAvailable cfg env (sensorUpdate env s)).sensor.altitudeDataIntervalSeconds * cfg.descendRate } } := by
      unfold initializeCase initializeLandingProfile
      simp only [hhome, Bool.not_true, Bool.false_eq_true, if_false]
      rw [if_pos (by simpa [hd2] using hdist)]
      by_cases h5m : s.sensor.distanceToHomeM < 5
      · rw [if_pos (by simpa [hd2] using h5m),
            if_neg (by simp only [hc2]; intro hcon; exact hB ⟨h5m, hcon⟩)]
      · rw [if_neg (by simpa [hd2] using h5m)]
    have hfail3 : (initializeCase cfg env (checkGPSRescueIsAvailable cfg env (sensorUpdate env s))).failure
        = RESCUE_HEALTHY := by
      rw [hIC]
      simp only [a2, f2]
      exact hfail
    have htime3 : env.currentTimeUs -
        (initializeCase cfg env (checkGPSRescueIsAvailable cfg env (sensorUpdate env s))).previousTimeUs
        < 1000000 := by
      rw [hIC]
      simp only [a5, f4]
      exact htime
    have hphase3 : (initializeCase cfg env (checkGPSRescueIsAvailable cfg env (sensorUpdate env s))).phase
        = RESCUE_LANDING := by rw [hIC]
    have hq := performSanityChecks_quiet cfg env
      (initializeCase cfg env (checkGPSRescueIsAvailable cfg env (sensorUpdate env s)))
      (by rw [hphase3]; decide) (by rw [hphase3]; decide) hfail3 hcrash htime3
    have hfin : ∀ t : GState, t.phase = RESCUE_LANDING →
        t.intent.targetVelocityCmS = 0 → t.intent.pitchAngleLimitDeg = 0 →
        t.intent.rollAngleLimitDeg = 0 → t.intent.proximityToLandingArea = 0 →
        (rescueAttainPosition cfg env t).phase = RESCUE_LANDING ∧
        (rescueAttainPosition cfg env t).intent.targetVelocityCmS = 0 ∧
        (rescueAttainPosition cfg env t).intent.pitchAngleLimitDeg = 0 ∧
        (rescueAttainPosition cfg env t).intent.rollAngleLimitDeg = 0 ∧
        (rescueAttainPosition cfg env t).intent.proximityToLandingArea = 0 := by
      intro t h1 h2 h3 h4 h5
      have hi := rescueAttainPosition_intent_frame cfg env t (by rw [h1]; decide)
      rw [rescueAttainPosition_phase, hi]
      exact ⟨h1, h2, h3, h4, h5⟩
    unfold gpsRescueUpdate
    rw [hpresan, hq]
    exact hfin _ (by split <;> simp [hIC]) (by split <;> simp [hIC])
      (by split <;> simp [hIC]) (by split <;> simp [hIC]) (by split <;> simp [hIC])

/-- C1 counterexample: the claim as stated quantifies over every sensor
    state satisfying its distance/altitude preconditions, but when no home
    point was acquired the Initialize handler records
    `RESCUE_NO_HOME_POINT` instead, and the sanity supervisor parks the
    craft in `DoNothing`: with `distanceToHomeM = 10 < minRescueDth = 20`
    and `¬(10 < 5)` the phase after the update is not `Landing`. -/
theorem C1_counterexample :
    (10:ℚ) < cfgX.minRescueDth ∧ ¬ ((10:ℚ) < 5) ∧
    (gpsRescueUpdate cfgX { envA with flightModeGpsRescue := true, gpsFixHome := false }
        { s0 with phase := RESCUE_INITIALIZE,
                  sensor := { s0.sensor with distanceToHomeM := 10 } }).phase
      = RESCUE_DO_NOTHING ∧
    ¬ (gpsRescueUpdate cfgX { envA with flightModeGpsRescue := true, gpsFixHome := false }
        { s0 with phase := RESCUE_INITIALIZE,
                  sensor := { s0.sensor with distanceToHomeM := 10 } }).phase
      = RESCUE_LANDING := by
  with_unfolding_all decide

/-- Witness for C1 at `distanceToHomeM = 10`, altitude 800 cm, home fix
    present: the update enters `Landing` with the pure vertical-descent
    profile. -/
theorem C1_witness :
    ((10:ℚ) < cfgX.minRescueDth ∧ ¬ ((10:ℚ) < 5 ∧ (800:ℚ) < 100 * cfgX.targetLandingAltitudeM)) ∧
    ((gpsRescueUpdate cfgX { envA with flightModeGpsRescue := true }
        { s0 with phase := RESCUE_INITIALIZE,
                  sensor := { s0.sensor with distanceToHomeM := 10 } }).phase
        = RESCUE_LANDING ∧
     (gpsRescueUpdate cfgX { envA with flightModeGpsRescue := true }
        { s0 with phase := RESCUE_INITIALIZE,
                  sensor := { s0.sensor with distanceToHomeM := 10 } }).intent.targetVelocityCmS = 0 ∧
     (gpsRescueUpdate cfgX { envA with flightModeGpsRescue := true }
        { s0 with phase := RESCUE_INITIALIZE,
                  sensor := { s0.sensor with distanceToHomeM := 10 } }).intent.pitchAngleLimitDeg = 0 ∧
     (gpsRescueUpdate cfgX { envA with flightModeGpsRescue := true }
        { s0 with phase := RESCUE_INITIALIZE,
                  sensor := { s0.sensor with distanceToHomeM := 10 } }).intent.rollAngleLimitDeg = 0 ∧
     (gpsRescueUpdate cfgX { envA with flightModeGpsRescue := true }
        { s0 with phase := RESCUE_INITIALIZE,
                  sensor := { s0.sensor with distanceToHomeM := 10 } }).intent.proximityToLandingArea = 0) :=
  ⟨by with_unfolding_all decide,
   (C1_initialize_close_to_home cfgX { envA with flightModeGpsRescue := true }
      { s0 with phase := RESCUE_INITIALIZE,
                sensor := { s0.sensor with distanceToHomeM := 10 } }
      (by with_unfolding_all decide) (by decide) (by with_unfolding_all decide)
      (by decide) (by decide) (by decide)
      (by with_unfolding_all decide) (by with_unfolding_all decide)).2
     (by with_unfolding_all decide)⟩

/-- C3 counterexample: activate with `distanceToHomeM = 3`,
    `currentAltitudeCm = 50`, `targetLandingAltitudeM = 1` (100 cm),
    `minRescueDth = 20`.  After the one update following activation the
    phase is `Abort` but disarm has not been called; after the next update
    disarm(Failsafe) has been called but the phase is back to `Idle` — the
    claimed conjunction holds at neither point. -/
theorem C3_counterexample :
    ¬ ((gpsRescueUpdate cfgX env0c sIdle).phase = RESCUE_ABORT ∧
       DISARM_REASON_FAILSAFE ∈ (gpsRescueUpdate cfgX env0c sIdle).disarmCalls) ∧
    ¬ ((gpsRescueUpdate cfgX env1c (gpsRescueUpdate cfgX env0c sIdle)).phase = RESCUE_ABORT ∧
       DISARM_REASON_FAILSAFE ∈
         (gpsRescueUpdate cfgX env1c (gpsRescueUpdate cfgX env0c sIdle)).disarmCalls) := by
  with_unfolding_all decide

/-- C3 (amended): with the claimed inputs, the update following activation
    sets the phase to `Abort` with no disarm call yet; the next update
    issues the disarm with reason `Failsafe` and returns the phase to
    `Idle`. -/
theorem C3_abort_then_disarm :
    (gpsRescueUpdate cfgX env0c sIdle).phase = RESCUE_ABORT ∧
    (gpsRescueUpdate cfgX env0c sIdle).disarmCalls = [] ∧
    (gpsRescueUpdate cfgX env1c (gpsRescueUpdate cfgX env0c sIdle)).disarmCalls
      = [DISARM_REASON_FAILSAFE] ∧
    (gpsRescueUpdate cfgX env1c (gpsRescueUpdate cfgX env0c sIdle)).phase = RESCUE_IDLE := by
  with_unfolding_all decide

theorem rescueAttainPosition_idle (cfg : Config) (env : Env) (t : GState)
    (h : t.phase = RESCUE_IDLE) :
    rescueAttainPosition cfg env t =
      { t with gpsRescueAnglePitch := 0, gpsRescueAngleRoll := 0,
               rescueThrottle := env.rcCommandThrottle } := by
  unfold rescueAttainPosition
  rw [h]

theorem performSanityChecks_idle (cfg : Config) (env : Env) (t : GState)
    (h : t.phase = RESCUE_IDLE) :
    performSanityChecks cfg env t = { t with failure := RESCUE_HEALTHY } := by
  unfold performSanityChecks performSanityChecksPre
  rw [if_pos h]
  rfl

theorem performSanityChecksPre_ne_idle (cfg : Config) (env : Env) (s : GState)
    (h : s.phase ≠ RESCUE_IDLE) (hc : env.crashRecoveryModeActive = false) :
    (performSanityChecksPre cfg env s).1.phase ≠ RESCUE_IDLE ∧
    (performSanityChecksPre cfg env s).2 = false := by
  constructor
  · unfold performSanityChecksPre
    rw [if_neg h]
    simp only [hc, Bool.false_eq_true, if_false]
    split_ifs <;> first | exact h | exact sanityEscalation_ne_idle _ _ _
  · unfold performSanityChecksPre
    rw [if_neg h]

theorem sanityFlyHomeCheck_phase (cfg : Config) (env : Env) (s : GState) :
    (sanityFlyHomeCheck cfg env s).phase = s.phase := by
  simp only [sanityFlyHomeCheck]
  split_ifs <;> rfl

theorem sanityLowSatsCheck_phase (cfg : Config) (env : Env) (s : GState) :
    (sanityLowSatsCheck cfg env s).phase = s.phase := by
  simp only [sanityLowSatsCheck]
  split_ifs <;> rfl

theorem sanityStuckCheck_ne_idle (s : GState) (h : s.phase ≠ RESCUE_IDLE) :
    (sanityStuckCheck s).phase ≠ RESCUE_IDLE := by
  cases hp : s.phase <;>
    simp only [sanityStuckCheck, hp] <;>
    (try split_ifs) <;>
    simp [hp] at h ⊢

theorem performSanityChecksOneHz_ne_idle (cfg : Config) (env : Env) (s : GState)
    (h : s.phase ≠ RESCUE_IDLE) :
    (performSanityChecksOneHz cfg env s).phase ≠ RESCUE_IDLE := by
  unfold performSanityChecksOneHz
  apply sanityStuckCheck_ne_idle
  rw [sanityLowSatsCheck_phase, sanityFlyHomeCheck_phase]
  exact h

theorem performSanityChecks_ne_idle (cfg : Config) (env : Env) (s : GState)
    (h : s.phase ≠ RESCUE_IDLE) (hc : env.crashRecoveryModeActive = false) :
    (performSanityChecks cfg env s).phase ≠ RESCUE_IDLE := by
  obtain ⟨h1, h2⟩ := performSanityChecksPre_ne_idle cfg env s h hc
  unfold performSanityChecks
  simp only [h2, Bool.false_eq_true, if_false]
  split
  · exact h1
  · exact performSanityChecksOneHz_ne_idle cfg env _ h1

/-- C5 (amended): after every update that ends with the phase `Idle`,
    `gpsRescueAngle` is (0, 0) and `rescueThrottle` is the pilot's
    `rcCommand[THROTTLE]`, for all input states; and `failure` is `Healthy`
    provided the rescue was not stopped this very tick by the crash-flip
    path inside the sanity supervisor (which runs after the supervisor's
    Idle reset and may leave or set a non-Healthy failure). -/
theorem C5_idle_passthrough (cfg : Config) (env : Env) (s : GState)
    (hpost : (gpsRescueUpdate cfg env s).phase = RESCUE_IDLE) :
    (gpsRescueUpdate cfg env s).gpsRescueAnglePitch = 0 ∧
    (gpsRescueUpdate cfg env s).gpsRescueAngleRoll = 0 ∧
    (gpsRescueUpdate cfg env s).rescueThrottle = env.rcCommandThrottle ∧
    (env.crashRecoveryModeActive = false →
      (gpsRescueUpdate cfg env s).failure = RESCUE_HEALTHY) := by
  have hsan : (performSanityChecks cfg env (preSanityState cfg env s)).phase
      = RESCUE_IDLE := by
    have := rescueAttainPosition_phase cfg env
      (performSanityChecks cfg env (preSanityState cfg env s))
    unfold gpsRescueUpdate at hpost
    rw [this] at hpost
    exact hpost
  have hattain := rescueAttainPosition_idle cfg env
    (performSanityChecks cfg env (preSanityState cfg env s)) hsan
  refine ⟨?_, ?_, ?_, ?_⟩
  · unfold gpsRescueUpdate
    rw [hattain]
  · unfold gpsRescueUpdate
    rw [hattain]
  · unfold gpsRescueUpdate
    rw [hattain]
  · intro hc
    by_cases hpre : (preSanityState cfg env s).phase = RESCUE_IDLE
    · have hq := performSanityChecks_idle cfg env (preSanityState cfg env s) hpre
      unfold gpsRescueUpdate
      rw [hattain, hq]
    · exact absurd hsan (performSanityChecks_ne_idle cfg env _ hpre hc)

/-- Witness for C5 with rescue mode off from the boot state: the update ends
    Idle with zero angles, pilot throttle passthrough and a Healthy failure
    state. -/
theorem C5_witness :
    (gpsRescueUpdate cfgX envA s0).phase = RESCUE_IDLE ∧
    ((gpsRescueUpdate cfgX envA s0).gpsRescueAnglePitch = 0 ∧
     (gpsRescueUpdate cfgX envA s0).gpsRescueAngleRoll = 0 ∧
     (gpsRescueUpdate cfgX envA s0).rescueThrottle = envA.rcCommandThrottle ∧
     (envA.crashRecoveryModeActive = false →
       (gpsRescueUpdate cfgX envA s0).failure = RESCUE_HEALTHY)) :=
  ⟨by with_unfolding_all decide,
   C5_idle_passthrough cfgX envA s0 (by with_unfolding_all decide)⟩

/-- C5 counterexample: during a rescue tick on which crash-flip recovery is
    active and the GPS is unhealthy, the supervisor disarms and stops the
    rescue after its Idle reset point, so the update ends with phase `Idle`
    yet `failure = GpsLost` — against the claim's `failure == Healthy`. -/
theorem C5_counterexample :
    (gpsRescueUpdate cfgX
        { envA with flightModeGpsRescue := true, crashRecoveryModeActive := true,
                    gpsIsHealthy := false }
        { s0 with phase := RESCUE_ATTAIN_ALT }).phase = RESCUE_IDLE ∧
    (gpsRescueUpdate cfgX
        { envA with flightModeGpsRescue := true, crashRecoveryModeActive := true,
                    gpsIsHealthy := false }
        { s0 with phase := RESCUE_ATTAIN_ALT }).failure = RESCUE_GPSLOST := by
  with_unfolding_all decide

/-- C6: on a tick with no new GPS packet, `sensorUpdate` leaves
    `distanceToHomeCm`, `distanceToHomeM`, `groundSpeedCmS`,
    `gpsDataIntervalSeconds` and `velocityToHomeCmS` unchanged; the
    controller does not recompute the velocity-PID state — integrator,
    previous error, D filter and held `pitchAdjustment` are unchanged on
    every phase except the `Initialize` re-zeroing — and on the
    controller-active phases the pitch output is exactly the PT3 upsample
    filter applied to the held `pitchAdjustment`. -/
theorem C6_no_gps_recompute (cfg : Config) (env : Env) (s : GState)
    (hgps : env.newGPSData = false) :
    ((sensorUpdate env s).sensor.distanceToHomeCm = s.sensor.distanceToHomeCm ∧
     (sensorUpdate env s).sensor.distanceToHomeM = s.sensor.distanceToHomeM ∧
     (sensorUpdate env s).sensor.groundSpeedCmS = s.sensor.groundSpeedCmS ∧
     (sensorUpdate env s).sensor.gpsDataIntervalSeconds = s.sensor.gpsDataIntervalSeconds ∧
     (sensorUpdate env s).sensor.velocityToHomeCmS = s.sensor.velocityToHomeCmS) ∧
    (s.phase ≠ RESCUE_INITIALIZE →
      (rescueAttainPosition cfg env s).pitchAdjustment = s.pitchAdjustment ∧
      (rescueAttainPosition cfg env s).previousVelocityError = s.previousVelocityError ∧
      (rescueAttainPosition cfg env s).velocityI = s.velocityI ∧
      (rescueAttainPosition cfg env s).velocityDLpf = s.velocityDLpf) ∧
    (s.phase ≠ RESCUE_IDLE → s.phase ≠ RESCUE_INITIALIZE → s.phase ≠ RESCUE_DO_NOTHING →
      (rescueAttainPosition cfg env s).gpsRescueAnglePitch
        = (pt3FilterApply s.velocityUpsampleLpf s.pitchAdjustment).state ∧
      (rescueAttainPosition cfg env s).velocityUpsampleLpf
        = pt3FilterApply s.velocityUpsampleLpf s.pitchAdjustment) := by
  obtain ⟨k1, k2, k3, k4, k5, -⟩ := sensorUpdate_noGPS_frame env s hgps
  refine ⟨⟨k1, k2, k3, k4, k5⟩, ?_, ?_⟩
  · intro hni
    cases hp : s.phase <;> simp [rescueAttainPosition, hp, hgps] <;> simp [hp] at hni
  · intro h1 h2 h3
    cases hp : s.phase <;>
      first
      | (exfalso; simp [hp] at h1 h2 h3; done)
      | (simp [rescueAttainPosition, hp, hgps])

/-- Witness for C6 in `FlyHome` with no new GPS packet: the held pitch
    adjustment and velocity-PID state survive the tick and the pitch output
    is the PT3 of the held value. -/
theorem C6_witness :
    envA.newGPSData = false ∧
    (({ s0 with phase := RESCUE_FLY_HOME } : GState).phase ≠ RESCUE_INITIALIZE →
      (rescueAttainPosition cfgX envA { s0 with phase := RESCUE_FLY_HOME }).pitchAdjustment
        = ({ s0 with phase := RESCUE_FLY_HOME } : GState).pitchAdjustment ∧
      (rescueAttainPosition cfgX envA { s0 with phase := RESCUE_FLY_HOME }).previousVelocityError
        = ({ s0 with phase := RESCUE_FLY_HOME } : GState).previousVelocityError ∧
      (rescueAttainPosition cfgX envA { s0 with phase := RESCUE_FLY_HOME }).velocityI
        = ({ s0 with phase := RESCUE_FLY_HOME } : GState).velocityI ∧
      (rescueAttainPosition cfgX envA { s0 with phase := RESCUE_FLY_HOME }).velocityDLpf
        = ({ s0 with phase := RESCUE_FLY_HOME } : GState).velocityDLpf) :=
  ⟨rfl, (C6_no_gps_recompute cfgX envA { s0 with phase := RESCUE_FLY_HOME } rfl).2.1⟩

theorem sanityLowSatsCheck_goodfix (cfg : Config) (env : Env) (u : GState)
    (hfix : env.gpsFix = true) (hsat : cfg.gpsMinSatCount ≤ env.numSat)
    (hsls : u.secondsLowSats ≤ 10) :
    sanityLowSatsCheck cfg env u =
      { u with secondsLowSats := constrain (u.secondsLowSats + -1) 0 10 } := by
  unfold sanityLowSatsCheck
  have hcond : (if !env.gpsFix || env.numSat < cfg.gpsMinSatCount then (1:ℤ) else -1) = -1 := by
    rw [if_neg]
    simp [hfix]
    omega
  rw [hcond]
  rw [if_neg (by unfold constrain; split_ifs <;> omega)]

theorem sanityStuckCheck_flyhome (u : GState) (h : u.phase = RESCUE_FLY_HOME) :
    sanityStuckCheck u =
      { u with prevAltitudeCm := u.sensor.currentAltitudeCm,
               prevTargetAltitudeCm := u.intent.targetAltitudeCm } := by
  simp only [sanityStuckCheck, h]

/-- C8: at a 1 Hz sanity evaluation during `FlyHome` (with a good satellite
    fix, so low-sat saturation does not interfere), `secondsFailing` is
    stepped up when `previousDistanceToHome − distanceToHome` is below half
    the target velocity and down otherwise, clamped to [0, 15]; on reaching
    15, if a magnetometer is present, in use, and not yet force-disabled,
    the mag is force-disabled and the counter reset (the one-shot retry);
    otherwise `failure` becomes `Flyaway`. -/
theorem C8_flyaway_detection (cfg : Config) (env : Env) (s : GState)
    (hphase : s.phase = RESCUE_FLY_HOME)
    (hfix : env.gpsFix = true) (hsat : cfg.gpsMinSatCount ≤ env.numSat)
    (hsls : s.secondsLowSats ≤ 10) :
    ((constrain (s.intent.secondsFailing +
        (if s.previousDistanceToHomeCm - s.sensor.distanceToHomeCm
            < (1/2) * s.intent.targetVelocityCmS then 1 else -1)) 0 15 ≠ 15) →
      (performSanityChecksOneHz cfg env s).intent.secondsFailing
        = constrain (s.intent.secondsFailing +
            (if s.previousDistanceToHomeCm - s.sensor.distanceToHomeCm
                < (1/2) * s.intent.targetVelocityCmS then 1 else -1)) 0 15 ∧
      (performSanityChecksOneHz cfg env s).magForceDisable = s.magForceDisable ∧
      (performSanityChecksOneHz cfg env s).failure = s.failure) ∧
    ((constrain (s.intent.secondsFailing +
        (if s.previousDistanceToHomeCm - s.sensor.distanceToHomeCm
            < (1/2) * s.intent.targetVelocityCmS then 1 else -1)) 0 15 = 15) →
      ((env.sensorsMag && cfg.useMag && !s.magForceDisable) = true →
        (performSanityChecksOneHz cfg env s).magForceDisable = true ∧
        (performSanityChecksOneHz cfg env s).intent.secondsFailing = 0 ∧
        (performSanityChecksOneHz cfg env s).failure = s.failure) ∧
      ((env.sensorsMag && cfg.useMag && !s.magForceDisable) = false →
        (performSanityChecksOneHz cfg env s).failure = RESCUE_FLYAWAY ∧
        (performSanityChecksOneHz cfg env s).intent.secondsFailing = 15 ∧
        (performSanityChecksOneHz cfg env s).magForceDisable = s.magForceDisable)) := by
  unfold performSanityChecksOneHz
  constructor
  · intro hne
    have hstep : sanityFlyHomeCheck cfg env { s with previousTimeUs := env.currentTimeUs }
        = { s with previousTimeUs := env.currentTimeUs,
                   previousDistanceToHomeCm := s.sensor.distanceToHomeCm,
                   intent := { s.intent with
                     secondsFailing := constrain (s.intent.secondsFailing +
                       (if s.previousDistanceToHomeCm - s.sensor.distanceToHomeCm
                           < (1/2) * s.intent.targetVelocityCmS then 1 else -1)) 0 15 } } := by
      simp only [sanityFlyHomeCheck, hphase, eq_self_iff_true, if_true]
      rw [if_neg hne]
    rw [hstep, sanityLowSatsCheck_goodfix cfg env _ hfix hsat (by simpa using hsls),
        sanityStuckCheck_flyhome _ (by simpa using hphase)]
    simp
  · intro heq
    constructor
    · intro hmag
      have hstep : sanityFlyHomeCheck cfg env { s with previousTimeUs := env.currentTimeUs }
          = { s with previousTimeUs := env.currentTimeUs,
                     previousDistanceToHomeCm := s.sensor.distanceToHomeCm,
                     magForceDisable := true,
                     intent := { s.intent with secondsFailing := 0 } } := by
        simp only [sanityFlyHomeCheck, hphase, eq_self_iff_true, if_true]
        rw [if_pos heq, if_pos hmag]
      rw [hstep, sanityLowSatsCheck_goodfix cfg env _ hfix hsat (by simpa using hsls),
          sanityStuckCheck_flyhome _ (by simpa using hphase)]
      simp
    · intro hmag
      have hstep : sanityFlyHomeCheck cfg env { s with previousTimeUs := env.currentTimeUs }
          = { s with previousTimeUs := env.currentTimeUs,
                     previousDistanceToHomeCm := s.sensor.distanceToHomeCm,
                     failure := RESCUE_FLYAWAY,
                     intent := { s.intent with
                       secondsFailing := constrain (s.intent.secondsFailing +
                         (if s.previousDistanceToHomeCm - s.sensor.distanceToHomeCm
                             < (1/2) * s.intent.targetVelocityCmS then 1 else -1)) 0 15 } } := by
        simp only [sanityFlyHomeCheck, hphase, eq_self_iff_true, if_true]
        rw [if_pos heq, if_neg (by simp [hmag])]
      rw [hstep, sanityLowSatsCheck_goodfix cfg env _ hfix hsat (by simpa using hsls),
          sanityStuckCheck_flyhome _ (by simpa using hphase)]
      simp
      simpa using heq


/-- Witness for C8: 14 seconds already failing, approach velocity 100 cm/s
    against a 1000 cm/s target: the counter saturates at 15 and, with the
    magnetometer available and in use, the one-shot retry fires. -/
theorem C8_witness :
    (sFly.phase = RESCUE_FLY_HOME ∧
     constrain (sFly.intent.secondsFailing +
        (if sFly.previousDistanceToHomeCm - sFly.sensor.distanceToHomeCm
            < (1/2) * sFly.intent.targetVelocityCmS then 1 else -1)) 0 15 = 15) ∧
    ((performSanityChecksOneHz cfgX envA sFly).magForceDisable = true ∧
     (performSanityChecksOneHz cfgX envA sFly).intent.secondsFailing = 0 ∧
     (performSanityChecksOneHz cfgX envA sFly).failure = sFly.failure) :=
  ⟨⟨rfl, by with_unfolding_all decide⟩,
   ((C8_flyaway_detection cfgX envA sFly rfl rfl
      (by with_unfolding_all decide) (by with_unfolding_all decide)).2
     (by with_unfolding_all decide)).1 (by with_unfolding_all decide)⟩

theorem sanityFlyHomeCheck_disarmCalls (cfg : Config) (env : Env) (s : GState) :
    (sanityFlyHomeCheck cfg env s).disarmCalls = s.disarmCalls := by
  simp only [sanityFlyHomeCheck]
  split_ifs <;> rfl

theorem sanityLowSatsCheck_disarmCalls (cfg : Config) (env : Env) (s : GState) :
    (sanityLowSatsCheck cfg env s).disarmCalls = s.disarmCalls := by
  simp only [sanityLowSatsCheck]
  split_ifs <;> rfl

theorem sanityStuckCheck_disarmCalls (s : GState) :
    (sanityStuckCheck s).disarmCalls = s.disarmCalls := by
  cases hp : s.phase <;> simp only [sanityStuckCheck, hp] <;> (try split_ifs) <;> rfl

theorem performSanityChecksPre_disarmCalls (cfg : Config) (env : Env) (s : GState)
    (hc : env.crashRecoveryModeActive = false) :
    (performSanityChecksPre cfg env s).1.disarmCalls = s.disarmCalls := by
  unfold performSanityChecksPre
  by_cases hidle : s.phase = RESCUE_IDLE
  · rw [if_pos hidle]
  · rw [if_neg hidle]
    simp only [hc, Bool.false_eq_true, if_false]
    split_ifs <;> rfl

theorem performSanityChecksOneHz_disarmCalls (cfg : Config) (env : Env) (s : GState) :
    (performSanityChecksOneHz cfg env s).disarmCalls = s.disarmCalls := by
  unfold performSanityChecksOneHz
  rw [sanityStuckCheck_disarmCalls, sanityLowSatsCheck_disarmCalls,
      sanityFlyHomeCheck_disarmCalls]

theorem performSanityChecks_disarmCalls (cfg : Config) (env : Env) (s : GState)
    (hc : env.crashRecoveryModeActive = false) :
    (performSanityChecks cfg env s).disarmCalls = s.disarmCalls := by
  by_cases hidle : s.phase = RESCUE_IDLE
  · rw [performSanityChecks_idle cfg env s hidle]
  · unfold performSanityChecks
    obtain ⟨-, h2⟩ := performSanityChecksPre_ne_idle cfg env s hidle hc
    simp only [h2, Bool.false_eq_true, if_false]
    split
    · exact performSanityChecksPre_disarmCalls cfg env s hc
    · rw [performSanityChecksOneHz_disarmCalls]
      exact performSanityChecksPre_disarmCalls cfg env s hc

theorem disarmOnImpact_disarmCalls (u : GState) :
    (disarmOnImpact u).disarmCalls =
      u.disarmCalls ++ (if u.sensor.accMagnitude > u.intent.disarmThreshold
                        then [DISARM_REASON_GPS_RESCUE] else []) := by
  unfold disarmOnImpact rescueStop disarmWith
  split_ifs <;> simp

/-- C9: `sensorUpdate` recomputes `accMagnitude` only on `Landing` ticks and
    leaves it unchanged otherwise; consequently, on a `DoNothing` tick the
    impact check in `disarmOnImpact` reads the held value: the update issues
    a `GpsRescue` disarm exactly when the held `accMagnitude` exceeds the
    disarm threshold. -/
theorem C9_accMagnitude_held (cfg : Config) (env : Env) (s : GState) :
    ((s.phase ≠ RESCUE_LANDING →
        (sensorUpdate env s).sensor.accMagnitude = s.sensor.accMagnitude) ∧
     (s.phase = RESCUE_LANDING →
        (sensorUpdate env s).sensor.accMagnitude = env.accMagnitudeComputed)) ∧
    (s.phase = RESCUE_DO_NOTHING → env.flightModeGpsRescue = true →
      env.crashRecoveryModeActive = false →
      (gpsRescueUpdate cfg env s).disarmCalls =
        s.disarmCalls ++ (if s.sensor.accMagnitude > s.intent.disarmThreshold
                          then [DISARM_REASON_GPS_RESCUE] else [])) := by
  refine ⟨⟨?_, ?_⟩, ?_⟩
  · intro h
    rw [sensorUpdate_accMagnitude, if_neg h]
  · intro h
    rw [sensorUpdate_accMagnitude, if_pos h]
  · intro hphase hmode hcrash
    have hm : modeStep cfg env s = s := by
      unfold modeStep
      rw [hmode]
      simp [hphase]
    obtain ⟨f1, -, f3, -, -, -, -, -, -, f10, -, -, -, -, -⟩ := sensorUpdate_frame env s
    obtain ⟨a1, -, a3, a4, -, -, -, -, -, -, a11, -, -⟩ :=
      checkGPSRescueIsAvailable_frame cfg env (sensorUpdate env s)
    have hswitch : rescuePhaseSwitch cfg env
        (checkGPSRescueIsAvailable cfg env (sensorUpdate env s))
        = disarmOnImpact (checkGPSRescueIsAvailable cfg env (sensorUpdate env s)) := by
      unfold rescuePhaseSwitch
      rw [a1, f1, hphase]
    have hacc : (checkGPSRescueIsAvailable cfg env (sensorUpdate env s)).sensor.accMagnitude
        = s.sensor.accMagnitude := by
      rw [a3, sensorUpdate_accMagnitude, if_neg (by rw [hphase]; decide)]
    have hthr : (checkGPSRescueIsAvailable cfg env (sensorUpdate env s)).intent.disarmThreshold
        = s.intent.disarmThreshold := by rw [a4, f3]
    have hdc : (checkGPSRescueIsAvailable cfg env (sensorUpdate env s)).disarmCalls
        = s.disarmCalls := by rw [a11, f10]
    unfold gpsRescueUpdate preSanityState
    rw [hm, (rescueAttainPosition_failure cfg env _).2,
        performSanityChecks_disarmCalls cfg env _ hcrash, hswitch,
        disarmOnImpact_disarmCalls, hdc, hacc, hthr]

/-- Witness for C9: in `DoNothing`, a held 3 g magnitude against a 2 g
    threshold disarms with reason `GpsRescue` this very tick. -/
theorem C9_witness :
    (sDoNothing.phase = RESCUE_DO_NOTHING ∧ env0.flightModeGpsRescue = true ∧
     env0.crashRecoveryModeActive = false) ∧
    (gpsRescueUpdate cfgX env0 sDoNothing).disarmCalls =
      sDoNothing.disarmCalls ++
        (if sDoNothing.sensor.accMagnitude > sDoNothing.intent.disarmThreshold
         then [DISARM_REASON_GPS_RESCUE] else []) :=
  ⟨⟨rfl, rfl, rfl⟩, (C9_accMagnitude_held cfgX env0 sDoNothing).2 rfl rfl rfl⟩

/-- C10 counterexample: in the `sZeroDiv` run the fourth tick performs a
    1 Hz sanity evaluation in `Landing` whose stuck-altitude divisor
    `targetAltitudeCm − prevTargetAltitudeCm` is zero, refuting the claim
    that the divisor is nonzero at every reachable consuming evaluation. -/
theorem C10_counterexample : ¬ stuckAltitudeDivisorClaim := by
  intro h
  exact h 0 0 0 cfgX [envA, env0, env1] env2
    (by with_unfolding_all decide) (by with_unfolding_all decide)
    (Or.inl (by with_unfolding_all decide)) (by with_unfolding_all decide)

/-- C10 (amended): a reachable 1 Hz sanity evaluation in `Landing` can have
    a zero stuck-altitude divisor (here because `returnAltitudeCm = 0` fully
    attenuates the Landing altitude step, so the target altitude is
    unchanged over the window); the code divides anyway — float division
    yields an infinity or NaN in C, and in this total ℚ embedding the ratio
    is 0 — and the comparison `ratio > 0.5` still selects a branch, here
    stepping `secondsFailing` up by one. -/
theorem C10_zero_divisor_tolerated :
    (oneHzEvalState cfgX env2 sZeroDiv).phase = RESCUE_LANDING ∧
    (performSanityChecksPre cfgX env2 (preSanityState cfgX env2 sZeroDiv)).2 = false ∧
    1000000 ≤ env2.currentTimeUs - (oneHzEvalState cfgX env2 sZeroDiv).previousTimeUs ∧
    (oneHzEvalState cfgX env2 sZeroDiv).intent.targetAltitudeCm
      - (oneHzEvalState cfgX env2 sZeroDiv).prevTargetAltitudeCm = 0 ∧
    (gpsRescueUpdate cfgX env2 sZeroDiv).intent.secondsFailing
      = (oneHzEvalState cfgX env2 sZeroDiv).intent.secondsFailing + 1 := by
  with_unfolding_all decide

theorem yawGrid_bounds (r : ℚ) (h : YawGrid r) : 0 ≤ r ∧ r ≤ 1 := by
  obtain ⟨k, hk, rfl⟩ := h
  constructor
  · positivity
  · rw [div_le_one (by norm_num)]
    exact_mod_cast hk

theorem yawGrid_ramp (r task : ℚ) (hg : YawGrid r) (ht : task = 1/100) (hlt : r < 1) :
    YawGrid (r + task) ∧ 0 ≤ r + task ∧ r + task ≤ 1 := by
  subst ht
  obtain ⟨k, hk, rfl⟩ := hg
  have hk100 : (k : ℚ) < 100 := by
    have := (div_lt_one (by norm_num : (0:ℚ) < 100)).1 hlt
    linarith
  have hkn : k < 100 := by exact_mod_cast hk100
  have hstep : (k : ℚ) / 100 + 1 / 100 = ((k + 1 : ℕ) : ℚ) / 100 := by
    push_cast
    ring
  refine ⟨⟨k + 1, by omega, hstep⟩, ?_, ?_⟩
  · positivity
  · rw [hstep, div_le_one (by norm_num)]
    have : ((k + 1 : ℕ) : ℚ) ≤ 100 := by exact_mod_cast (by omega : k + 1 ≤ 100)
    linarith

theorem relax_ramp (r task : ℚ) (h0 : 0 ≤ r) (h1 : r ≤ 1) (ht : task = 1/100) :
    0 ≤ r + (1/2) * task * (1 - r) ∧ r + (1/2) * task * (1 - r) ≤ 1 := by
  subst ht
  constructor <;> linarith

theorem C4Strong_transfer (t : GState)
    (h1 : 0 ≤ t.intent.secondsFailing ∧ t.intent.secondsFailing ≤ 15)
    (h2 : 0 ≤ t.secondsLowSats ∧ t.secondsLowSats ≤ 10)
    (h3 : YawGrid t.intent.yawAttenuator)
    (h4 : 0 ≤ t.intent.velocityItermRelax ∧ t.intent.velocityItermRelax ≤ 1)
    (h5 : 0 ≤ t.intent.proximityToLandingArea ∧ t.intent.proximityToLandingArea ≤ 1)
    (h6 : t.sensor.gpsRescueTaskIntervalSeconds = 1/100) : C4StrongInv t := by
  obtain ⟨hy0, hy1⟩ := yawGrid_bounds _ h3
  exact ⟨⟨h1.1, h1.2, h2.1, h2.2, hy0, hy1, h4.1, h4.2, h5.1, h5.2⟩, h3, h6⟩

theorem C4Strong_of_eq (s t : GState)
    (h1 : t.intent.secondsFailing = s.intent.secondsFailing)
    (h2 : t.secondsLowSats = s.secondsLowSats)
    (h3 : t.intent.yawAttenuator = s.intent.yawAttenuator)
    (h4 : t.intent.velocityItermRelax = s.intent.velocityItermRelax)
    (h5 : t.intent.proximityToLandingArea = s.intent.proximityToLandingArea)
    (h6 : t.sensor.gpsRescueTaskIntervalSeconds = s.sensor.gpsRescueTaskIntervalSeconds)
    (h : C4StrongInv s) : C4StrongInv t := by
  obtain ⟨⟨i1, i2, i3, i4, i5, i6, i7, i8, i9, i10⟩, hg, ht⟩ := h
  exact ⟨⟨h1 ▸ i1, h1 ▸ i2, h2 ▸ i3, h2 ▸ i4, h3 ▸ i5, h3 ▸ i6, h4 ▸ i7, h4 ▸ i8,
          h5 ▸ i9, h5 ▸ i10⟩, h3 ▸ hg, h6 ▸ ht⟩

theorem C4Strong_sensorUpdate (env : Env) (s : GState) (h : C4StrongInv s) :
    C4StrongInv (sensorUpdate env s) := by
  obtain ⟨-, -, f3, -, -, -, -, f8, -, -, -, -, -, -, f15⟩ := sensorUpdate_frame env s
  exact C4Strong_of_eq s _ (by rw [f3]) f8 (by rw [f3]) (by rw [f3]) (by rw [f3]) f15 h

theorem C4Strong_avail (cfg : Config) (env : Env) (s : GState) (h : C4StrongInv s) :
    C4StrongInv (checkGPSRescueIsAvailable cfg env s) := by
  obtain ⟨-, -, a3, a4, -, -, -, -, a9, -, -, -, -⟩ := checkGPSRescueIsAvailable_frame cfg env s
  exact C4Strong_of_eq s _ (by rw [a4]) a9 (by rw [a4]) (by rw [a4]) (by rw [a4]) (by rw [a3]) h

theorem rescueAttainPosition_C4fields (cfg : Config) (env : Env) (s : GState) :
    (rescueAttainPosition cfg env s).intent.secondsFailing = s.intent.secondsFailing ∧
    (rescueAttainPosition cfg env s).secondsLowSats = s.secondsLowSats ∧
    (rescueAttainPosition cfg env s).intent.yawAttenuator = s.intent.yawAttenuator ∧
    (rescueAttainPosition cfg env s).intent.velocityItermRelax = s.intent.velocityItermRelax ∧
    (rescueAttainPosition cfg env s).intent.proximityToLandingArea
      = s.intent.proximityToLandingArea ∧
    (rescueAttainPosition cfg env s).sensor.gpsRescueTaskIntervalSeconds
      = s.sensor.gpsRescueTaskIntervalSeconds := by
  cases hp : s.phase <;> simp [rescueAttainPosition, hp]

theorem C4Strong_attain (cfg : Config) (env : Env) (s : GState) (h : C4StrongInv s) :
    C4StrongInv (rescueAttainPosition cfg env s) := by
  obtain ⟨g1, g2, g3, g4, g5, g6⟩ := rescueAttainPosition_C4fields cfg env s
  exact C4Strong_of_eq s _ g1 g2 g3 g4 g5 g6 h

theorem performSanityChecksPre_C4fields (cfg : Config) (env : Env) (s : GState) :
    (performSanityChecksPre cfg env s).1.intent = s.intent ∧
    ((performSanityChecksPre cfg env s).1.secondsLowSats = s.secondsLowSats ∨
     (performSanityChecksPre cfg env s).1.secondsLowSats = 0) ∧
    (performSanityChecksPre cfg env s).1.sensor = s.sensor := by
  unfold performSanityChecksPre
  by_cases hidle : s.phase = RESCUE_IDLE
  · rw [if_pos hidle]
    exact ⟨rfl, Or.inl rfl, rfl⟩
  · rw [if_neg hidle]
    simp only []
    split_ifs <;> simp [rescueStop, disarmWith]

theorem C4Strong_sanityPre (cfg : Config) (env : Env) (s : GState) (h : C4StrongInv s) :
    C4StrongInv (performSanityChecksPre cfg env s).1 := by
  obtain ⟨p1, p2, p3⟩ := performSanityChecksPre_C4fields cfg env s
  obtain ⟨⟨i1, i2, i3, i4, i5, i6, i7, i8, i9, i10⟩, hg, ht⟩ := h
  rcases p2 with p2 | p2
  · exact C4Strong_transfer _ ⟨by rw [p1]; exact i1, by rw [p1]; exact i2⟩
      ⟨by rw [p2]; exact i3, by rw [p2]; exact i4⟩ (by rw [p1]; exact hg)
      ⟨by rw [p1]; exact i7, by rw [p1]; exact i8⟩
      ⟨by rw [p1]; exact i9, by rw [p1]; exact i10⟩ (by rw [p3]; exact ht)
  · exact C4Strong_transfer _ ⟨by rw [p1]; exact i1, by rw [p1]; exact i2⟩
      ⟨by rw [p2], by rw [p2]; norm_num⟩ (by rw [p1]; exact hg)
      ⟨by rw [p1]; exact i7, by rw [p1]; exact i8⟩
      ⟨by rw [p1]; exact i9, by rw [p1]; exact i10⟩ (by rw [p3]; exact ht)

theorem sanityFlyHomeCheck_sf_bounds (cfg : Config) (env : Env) (s : GState)
    (h : 0 ≤ s.intent.secondsFailing ∧ s.intent.secondsFailing ≤ 15) :
    0 ≤ (sanityFlyHomeCheck cfg env s).intent.secondsFailing ∧
    (sanityFlyHomeCheck cfg env s).intent.secondsFailing ≤ 15 := by
  simp only [sanityFlyHomeCheck]
  split_ifs <;> refine ⟨?_, ?_⟩ <;>
    first
    | exact h.1
    | exact h.2
    | exact (constrain_bounds _ 0 15 (by norm_num)).1
    | exact (constrain_bounds _ 0 15 (by norm_num)).2
    | norm_num

theorem sanityFlyHomeCheck_C4frame (cfg : Config) (env : Env) (s : GState) :
    (sanityFlyHomeCheck cfg env s).intent.yawAttenuator = s.intent.yawAttenuator ∧
    (sanityFlyHomeCheck cfg env s).intent.velocityItermRelax = s.intent.velocityItermRelax ∧
    (sanityFlyHomeCheck cfg env s).intent.proximityToLandingArea
      = s.intent.proximityToLandingArea ∧
    (sanityFlyHomeCheck cfg env s).secondsLowSats = s.secondsLowSats ∧
    (sanityFlyHomeCheck cfg env s).sensor = s.sensor := by
  simp only [sanityFlyHomeCheck]
  split_ifs <;> simp

theorem sanityLowSatsCheck_C4 (cfg : Config) (env : Env) (s : GState) :
    (sanityLowSatsCheck cfg env s).intent = s.intent ∧
    (0 ≤ (sanityLowSatsCheck cfg env s).secondsLowSats ∧
     (sanityLowSatsCheck cfg env s).secondsLowSats ≤ 10) ∧
    (sanityLowSatsCheck cfg env s).sensor = s.sensor := by
  simp only [sanityLowSatsCheck]
  split_ifs <;>
    exact ⟨rfl, ⟨(constrain_bounds _ 0 10 (by norm_num)).1,
                 (constrain_bounds _ 0 10 (by norm_num)).2⟩, rfl⟩

theorem sanityStuckCheck_sf_bounds (s : GState)
    (h : 0 ≤ s.intent.secondsFailing ∧ s.intent.secondsFailing ≤ 15) :
    0 ≤ (sanityStuckCheck s).intent.secondsFailing ∧
    (sanityStuckCheck s).intent.secondsFailing ≤ 15 := by
  cases hp : s.phase <;>
    simp only [sanityStuckCheck, hp] <;>
    (try split_ifs) <;>
    refine ⟨?_, ?_⟩ <;>
    first
    | exact h.1
    | exact h.2
    | exact (constrain_bounds _ 0 10 (by norm_num)).1
    | exact le_trans (constrain_bounds _ 0 10 (by norm_num)).2 (by norm_num)
    | norm_num

theorem sanityStuckCheck_C4frame (s : GState) :
    (sanityStuckCheck s).intent.yawAttenuator = s.intent.yawAttenuator ∧
    (sanityStuckCheck s).intent.velocityItermRelax = s.intent.velocityItermRelax ∧
    (sanityStuckCheck s).intent.proximityToLandingArea = s.intent.proximityToLandingArea ∧
    (sanityStuckCheck s).secondsLowSats = s.secondsLowSats ∧
    (sanityStuckCheck s).sensor = s.sensor := by
  cases hp : s.phase <;>
    simp only [sanityStuckCheck, hp] <;>
    (try split_ifs) <;>
    simp

theorem C4Strong_oneHz (cfg : Config) (env : Env) (s : GState) (h : C4StrongInv s) :
    C4StrongInv (performSanityChecksOneHz cfg env s) := by
  have h0 : C4StrongInv ({ s with previousTimeUs := env.currentTimeUs } : GState) :=
    C4Strong_of_eq s _ rfl rfl rfl rfl rfl rfl h
  have h1 : C4StrongInv (sanityFlyHomeCheck cfg env
      { s with previousTimeUs := env.currentTimeUs }) := by
    obtain ⟨q1, q2, q3, q4, q5⟩ := sanityFlyHomeCheck_C4frame cfg env
      { s with previousTimeUs := env.currentTimeUs }
    obtain ⟨qb1, qb2⟩ := sanityFlyHomeCheck_sf_bounds cfg env
      { s with previousTimeUs := env.currentTimeUs } ⟨h0.1.1, h0.1.2.1⟩
    exact C4Strong_transfer _ ⟨qb1, qb2⟩
      ⟨by rw [q4]; exact h0.1.2.2.1, by rw [q4]; exact h0.1.2.2.2.1⟩
      (by rw [q1]; exact h0.2.1)
      ⟨by rw [q2]; exact h0.1.2.2.2.2.2.2.1, by rw [q2]; exact h0.1.2.2.2.2.2.2.2.1⟩
      ⟨by rw [q3]; exact h0.1.2.2.2.2.2.2.2.2.1, by rw [q3]; exact h0.1.2.2.2.2.2.2.2.2.2⟩
      (by rw [q5]; exact h0.2.2)
  have h2 : C4StrongInv (sanityLowSatsCheck cfg env (sanityFlyHomeCheck cfg env
      { s with previousTimeUs := env.currentTimeUs })) := by
    obtain ⟨r1, r2, r3⟩ := sanityLowSatsCheck_C4 cfg env (sanityFlyHomeCheck cfg env
      { s with previousTimeUs := env.currentTimeUs })
    exact C4Strong_transfer _ ⟨by rw [r1]; exact h1.1.1, by rw [r1]; exact h1.1.2.1⟩ r2
      (by rw [r1]; exact h1.2.1)
      ⟨by rw [r1]; exact h1.1.2.2.2.2.2.2.1, by rw [r1]; exact h1.1.2.2.2.2.2.2.2.1⟩
      ⟨by rw [r1]; exact h1.1.2.2.2.2.2.2.2.2.1, by rw [r1]; exact h1.1.2.2.2.2.2.2.2.2.2⟩
      (by rw [r3]; exact h1.2.2)
  unfold performSanityChecksOneHz
  obtain ⟨w1, w2, w3, w4, w5⟩ := sanityStuckCheck_C4frame (sanityLowSatsCheck cfg env
    (sanityFlyHomeCheck cfg env { s with previousTimeUs := env.currentTimeUs }))
  obtain ⟨wb1, wb2⟩ := sanityStuckCheck_sf_bounds (sanityLowSatsCheck cfg env
    (sanityFlyHomeCheck cfg env { s with previousTimeUs := env.currentTimeUs }))
    ⟨h2.1.1, h2.1.2.1⟩
  exact C4Strong_transfer _ ⟨wb1, wb2⟩
    ⟨by rw [w4]; exact h2.1.2.2.1, by rw [w4]; exact h2.1.2.2.2.1⟩
    (by rw [w1]; exact h2.2.1)
    ⟨by rw [w2]; exact h2.1.2.2.2.2.2.2.1, by rw [w2]; exact h2.1.2.2.2.2.2.2.2.1⟩
    ⟨by rw [w3]; exact h2.1.2.2.2.2.2.2.2.2.1, by rw [w3]; exact h2.1.2.2.2.2.2.2.2.2.2⟩
    (by rw [w5]; exact h2.2.2)

theorem C4Strong_sanity (cfg : Config) (env : Env) (s : GState) (h : C4StrongInv s) :
    C4StrongInv (performSanityChecks cfg env s) := by
  unfold performSanityChecks
  simp only []
  split_ifs
  · exact C4Strong_sanityPre cfg env s h
  · exact C4Strong_sanityPre cfg env s h
  · exact C4Strong_oneHz cfg env _ (C4Strong_sanityPre cfg env s h)

theorem yawGrid_zero : YawGrid 0 := ⟨0, by norm_num, by norm_num⟩

theorem C4Strong_setReturn (cfg : Config) (env : Env) (s : GState) (h : C4StrongInv s) :
    C4StrongInv (setReturnAltitude cfg env s) := by
  refine C4Strong_of_eq s _ ?_ ?_ ?_ ?_ ?_ ?_ h <;>
    (simp only [setReturnAltitude]; split_ifs <;> simp)

theorem C4Strong_initialize (cfg : Config) (env : Env) (s : GState) (h : C4StrongInv s) :
    C4StrongInv (initializeCase cfg env s) := by
  obtain ⟨⟨i1, i2, i3, i4, i5, i6, i7, i8, i9, i10⟩, hg, ht⟩ := h
  simp only [initializeCase, initializeLandingProfile]
  split_ifs <;>
    refine ⟨⟨?_, ?_, ?_, ?_, ?_, ?_, ?_, ?_, ?_, ?_⟩, ?_, ?_⟩ <;>
    first
    | assumption
    | exact yawGrid_zero
    | norm_num

theorem C4Strong_attainAlt (cfg : Config) (env : Env) (s : GState) (h : C4StrongInv s) :
    C4StrongInv (attainAltCase cfg env s) := by
  refine C4Strong_of_eq s _ ?_ ?_ ?_ ?_ ?_ ?_ h <;>
    (simp only [attainAltCase]; split_ifs <;> simp)

theorem C4Strong_rotate (cfg : Config) (env : Env) (s : GState) (h : C4StrongInv s) :
    C4StrongInv (rotateCase cfg env s) := by
  obtain ⟨⟨i1, i2, i3, i4, i5, i6, i7, i8, i9, i10⟩, hg, ht⟩ := h
  by_cases hy : s.intent.yawAttenuator < 1
  · obtain ⟨hgr, hr0, hr1⟩ := yawGrid_ramp _ _ hg ht hy
    simp only [rotateCase, if_pos hy]
    split_ifs <;>
      refine ⟨⟨?_, ?_, ?_, ?_, ?_, ?_, ?_, ?_, ?_, ?_⟩, ?_, ?_⟩ <;>
      first
      | assumption
      | norm_num
  · simp only [rotateCase, if_neg hy]
    split_ifs <;>
      refine ⟨⟨?_, ?_, ?_, ?_, ?_, ?_, ?_, ?_, ?_, ?_⟩, ?_, ?_⟩ <;>
      first
      | assumption
      | norm_num

theorem C4Strong_flyHome (cfg : Config) (env : Env) (s : GState) (h : C4StrongInv s) :
    C4StrongInv (flyHomeCase cfg env s) := by
  obtain ⟨⟨i1, i2, i3, i4, i5, i6, i7, i8, i9, i10⟩, hg, ht⟩ := h
  obtain ⟨hx0, hx1⟩ := relax_ramp s.intent.velocityItermRelax
    s.sensor.gpsRescueTaskIntervalSeconds i7 i8 ht
  by_cases hy : s.intent.yawAttenuator < 1
  · obtain ⟨hgr, hr0, hr1⟩ := yawGrid_ramp _ _ hg ht hy
    simp only [flyHomeCase, if_pos hy]
    split_ifs <;>
      refine ⟨⟨?_, ?_, ?_, ?_, ?_, ?_, ?_, ?_, ?_, ?_⟩, ?_, ?_⟩ <;>
      first
      | assumption
      | norm_num
  · simp only [flyHomeCase, if_neg hy]
    split_ifs <;>
      refine ⟨⟨?_, ?_, ?_, ?_, ?_, ?_, ?_, ?_, ?_, ?_⟩, ?_, ?_⟩ <;>
      first
      | assumption
      | norm_num

set_option maxHeartbeats 1000000 in
theorem C4Strong_descend (cfg : Config) (env : Env) (s : GState) (h : C4StrongInv s) :
    C4StrongInv (descend cfg env s) := by
  obtain ⟨⟨i1, i2, i3, i4, i5, i6, i7, i8, i9, i10⟩, hg, ht⟩ := h
  simp only [descend]
  split_ifs <;>
    first
    | exact C4Strong_transfer _ ⟨i1, i2⟩ ⟨i3, i4⟩ hg ⟨i7, i8⟩
        ⟨(constrainf_bounds _ 0 1 (by norm_num)).1,
         (constrainf_bounds _ 0 1 (by norm_num)).2⟩ ht
    | exact C4Strong_transfer _ ⟨i1, i2⟩ ⟨i3, i4⟩ hg ⟨i7, i8⟩ ⟨i9, i10⟩ ht

theorem C4Strong_descent (cfg : Config) (env : Env) (s : GState) (h : C4StrongInv s) :
    C4StrongInv (descentCase cfg env s) := by
  obtain ⟨⟨i1, i2, i3, i4, i5, i6, i7, i8, i9, i10⟩, hg, ht⟩ := h
  simp only [descentCase]
  split_ifs
  · exact C4Strong_descend cfg env _
      (C4Strong_transfer _ ⟨show (0:ℤ) ≤ 0 by decide, show (0:ℤ) ≤ 15 by decide⟩
        ⟨i3, i4⟩ hg ⟨i7, i8⟩ ⟨i9, i10⟩ ht)
  · exact C4Strong_descend cfg env s ⟨⟨i1, i2, i3, i4, i5, i6, i7, i8, i9, i10⟩, hg, ht⟩

theorem C4Strong_disarmOnImpact (s : GState) (h : C4StrongInv s) :
    C4StrongInv (disarmOnImpact s) := by
  unfold disarmOnImpact
  split_ifs
  · exact C4Strong_of_eq s _ rfl rfl rfl rfl rfl rfl h
  · exact h

theorem C4Strong_abort (s : GState) (h : C4StrongInv s) : C4StrongInv (abortCase s) := by
  obtain ⟨⟨i1, i2, i3, i4, i5, i6, i7, i8, i9, i10⟩, hg, ht⟩ := h
  exact C4Strong_transfer _ ⟨show (0:ℤ) ≤ 0 by decide, show (0:ℤ) ≤ 15 by decide⟩
    ⟨i3, i4⟩ hg ⟨i7, i8⟩ ⟨i9, i10⟩ ht

theorem C4Strong_switch (cfg : Config) (env : Env) (s : GState) (h : C4StrongInv s) :
    C4StrongInv (rescuePhaseSwitch cfg env s) := by
  cases hp : s.phase <;> simp only [rescuePhaseSwitch, hp]
  · exact C4Strong_setReturn cfg env s h
  · exact C4Strong_initialize cfg env s h
  · exact C4Strong_attainAlt cfg env s h
  · exact C4Strong_rotate cfg env s h
  · exact C4Strong_flyHome cfg env s h
  · exact C4Strong_descent cfg env s h
  · exact C4Strong_disarmOnImpact _ (C4Strong_descend cfg env s h)
  · exact C4Strong_abort s h
  · exact C4Strong_of_eq s _ rfl rfl rfl rfl rfl rfl h
  · exact C4Strong_disarmOnImpact s h

theorem C4Strong_modeStep (cfg : Config) (env : Env) (s : GState) (h : C4StrongInv s) :
    C4StrongInv (modeStep cfg env s) := by
  unfold modeStep
  split_ifs
  · exact C4Strong_of_eq s _ rfl rfl rfl rfl rfl rfl h
  · exact C4Strong_sanity cfg env _ (C4Strong_attain cfg env _
      (C4Strong_of_eq s _ rfl rfl rfl rfl rfl rfl h))
  · exact h

theorem C4Strong_update (cfg : Config) (env : Env) (s : GState) (h : C4StrongInv s) :
    C4StrongInv (gpsRescueUpdate cfg env s) := by
  unfold gpsRescueUpdate preSanityState
  exact C4Strong_attain cfg env _ (C4Strong_sanity cfg env _ (C4Strong_switch cfg env _
    (C4Strong_avail cfg env _ (C4Strong_sensorUpdate env _ (C4Strong_modeStep cfg env s h)))))

theorem C4Strong_run (cfg : Config) (envs : List Env) (s : GState) (h : C4StrongInv s) :
    C4StrongInv (run cfg envs s) := by
  induction envs generalizing s with
  | nil => exact h
  | cons e es ih =>
    simp only [run, List.foldl]
    exact ih _ (C4Strong_update cfg e s h)

theorem C4Strong_initial (cfg : Config) (g1 g2 g3 : ℚ) :
    C4StrongInv (initialState cfg g1 g2 g3) := by
  refine ⟨⟨?_, ?_, ?_, ?_, ?_, ?_, ?_, ?_, ?_, ?_⟩, ⟨0, ?_, ?_⟩, ?_⟩ <;>
    norm_num [initialState]

/-- **C4**: after any call of `gpsRescueUpdate` — applied to any state
    reachable by a run from boot under arbitrary configuration, filter gains
    and tick samples — the failure counters and attenuators are bounded:
    `0 ≤ secondsFailing ≤ 15`, `0 ≤ secondsLowSats ≤ 10`, and
    `yawAttenuator`, `velocityItermRelax` and `proximityToLandingArea` all
    lie in `[0, 1]`. -/
theorem C4_counters_and_attenuators_bounded (cfg : Config) (g1 g2 g3 : ℚ)
    (envs : List Env) (env : Env) :
    C4Inv (gpsRescueUpdate cfg env (run cfg envs (initialState cfg g1 g2 g3))) :=
  (C4Strong_update cfg env _ (C4Strong_run cfg envs _ (C4Strong_initial cfg g1 g2 g3))).1
